import Mathlib

/-!
Verification development for the InvenEase inventory server
(`src/Server/src/api/services`): a shallow embedding of the stock ledger,
the transaction recorder and the order-fulfillment services, with theorems
checking the specified invariants against the embedded code.

Modelling conventions:
* ids (products, locations, users, orders, items) are `Nat`;
* JavaScript numbers used as integer quantities are `Int`;
* the Prisma tables are association lists inside one `DB` record;
* `prisma.$transaction` is the `atomically` wrapper: a failing step yields
  the original state (full rollback), a succeeding run yields the new state;
* fire-and-forget notification delivery is an environment oracle
  (`notifyFails`): the services swallow its failure, which the theorems make
  explicit.
-/

namespace InvenEase

/-- `OrderStatus` from `prisma/schema.prisma`. -/
inductive OrderStatus
  | PENDING
  | APPROVED
  | PROCESSING
  | RECEIVED
  | SHIPPED
  | PARTIAL
  | COMPLETED
  | CANCELLED
deriving DecidableEq, Repr

/-- `TransactionType` from `prisma/schema.prisma`. -/
inductive TransactionType
  | PURCHASE
  | SALE
  | ADJUSTMENT_IN
  | ADJUSTMENT_OUT
  | TRANSFER_OUT
  | TRANSFER_IN
deriving DecidableEq, Repr

/-- The fields of `Product` the services read (`reorderLevel` drives the
low-stock check in `stock.service.ts`). -/
structure Product where
  id : Nat
  reorderLevel : Int
deriving DecidableEq, Repr

/-- A `StockLevel` row: unique key (productId, locationId), current balance. -/
structure StockRow where
  productId : Nat
  locationId : Nat
  quantity : Int
deriving DecidableEq, Repr

/-- A `Transaction` row (the append-only audit ledger). `ttype` renders the
source's `type` field (a Lean keyword). -/
structure TxRow where
  ttype : TransactionType
  productId : Nat
  quantityChange : Int
  userId : Nat
  sourceLocationId : Option Nat
  destinationLocationId : Option Nat
  relatedPoId : Option Nat
  relatedSoId : Option Nat
deriving DecidableEq, Repr

/-- A `PurchaseOrderItem` row. -/
structure POItem where
  id : Nat
  productId : Nat
  quantityOrdered : Int
  quantityReceived : Int
deriving DecidableEq, Repr

/-- A `PurchaseOrder` row with its items. -/
structure PurchaseOrder where
  id : Nat
  orderNumber : Nat
  userId : Nat
  status : OrderStatus
  items : List POItem
deriving DecidableEq, Repr

/-- A `SalesOrderItem` row. -/
structure SOItem where
  id : Nat
  productId : Nat
  quantityOrdered : Int
  quantityShipped : Int
deriving DecidableEq, Repr

/-- A `SalesOrder` row with its items. -/
structure SalesOrder where
  id : Nat
  orderNumber : Nat
  userId : Nat
  status : OrderStatus
  items : List SOItem
deriving DecidableEq, Repr

/-- Payload of `notificationService.createOrderStatusUpdateNotification`
(`orderId`, the `"PurchaseOrder" | "SalesOrder"` discriminator, `orderNumber`,
`newStatus`, user to notify). -/
structure StatusNotification where
  orderId : Nat
  isPurchaseOrder : Bool
  orderNumber : Nat
  newStatus : OrderStatus
  userIdToNotify : Nat
deriving DecidableEq, Repr

/-- Payload of `notificationService.createLowStockNotification`. -/
structure LowStockAlert where
  productId : Nat
  locationId : Nat
  quantity : Int
deriving DecidableEq, Repr

/-- An `AuditLog` row (only the fields the claims touch). -/
structure AuditEntry where
  userId : Nat
  action : String
deriving DecidableEq, Repr

/-- The persistent state the services operate on. -/
structure DB where
  products : List Product
  locations : List Nat
  stock : List StockRow
  txs : List TxRow
  purchaseOrders : List PurchaseOrder
  salesOrders : List SalesOrder
  notifs : List StatusNotification
  alerts : List LowStockAlert
  audits : List AuditEntry
deriving DecidableEq, Repr

/-- The error classes thrown by the services (`src/errors`), specialised by
throw site so that the diagnostic payload of each message is captured:
* `badRequestZeroChange` — `BadRequestError("Quantity change cannot be zero.")`;
* `badRequestNonPositiveQuantity` — the `BadRequestError`s rejecting a
  non-positive quantity (adjust/transfer/receive/ship);
* `badRequestSameLocation` — `BadRequestError` for `recordTransfer` with
  identical source and destination;
* `badRequestOverFulfill remaining` — the over-receipt/over-shipment
  `BadRequestError`, whose message states the remaining fulfillable amount;
* `badRequestTransition from target` — the `BadRequestError` rejecting a
  manual status change;
* `conflictInsufficientStock p l requested available` — the `ConflictError`
  raised when an enforced adjustment would go negative (its message carries
  product, location, required change and available quantity); the spec calls
  this failure `InsufficientStockError`;
* `conflictOrderStatus s` — `ConflictError` when the order status forbids
  fulfillment;
* `notFoundEntity` — any `NotFoundError` (missing product, location, order,
  item; foreign-key violations are translated to it by the source). -/
inductive Err
  | badRequestZeroChange
  | badRequestNonPositiveQuantity
  | badRequestSameLocation
  | badRequestOverFulfill (remaining : Int)
  | badRequestTransition (fromStatus target : OrderStatus)
  | conflictInsufficientStock (productId locationId : Nat) (requested available : Int)
  | conflictOrderStatus (status : OrderStatus)
  | notFoundEntity
deriving DecidableEq, Repr

/-- `prisma.$transaction`: a failing body observes no mutation at all
(the state rolls back to the input), a succeeding body commits its state. -/
def atomically {α : Type} (db : DB) (act : Except Err (DB × α)) : DB × Except Err α :=
  match act with
  | .ok (db', a) => (db', .ok a)
  | .error e => (db, .error e)

/-- `prisma.stockLevel.findUnique` on the composite key. -/
def findStock (rows : List StockRow) (productId locationId : Nat) : Option StockRow :=
  rows.find? (fun r => r.productId == productId && r.locationId == locationId)

/-- Current quantity of a (product, location) pair, `0` when no row exists. -/
def stockQty (rows : List StockRow) (productId locationId : Nat) : Int :=
  match findStock rows productId locationId with
  | some r => r.quantity
  | none => 0

/-- `prisma.stockLevel.upsert` as performed by `adjustStockLevel`:
`create` initialises `quantity = max 0 quantityChange`, `update` increments
by `quantityChange`. Returns the new row list and the resulting quantity. -/
def upsertStock (rows : List StockRow) (productId locationId : Nat) (quantityChange : Int) :
    List StockRow × Int :=
  match findStock rows productId locationId with
  | none =>
      (rows ++ [⟨productId, locationId, max 0 quantityChange⟩], max 0 quantityChange)
  | some r =>
      (rows.map (fun s =>
          if s.productId == productId && s.locationId == locationId then
            { s with quantity := s.quantity + quantityChange }
          else s),
        r.quantity + quantityChange)

/-- `prisma.product.findUnique`. -/
def findProduct (db : DB) (productId : Nat) : Option Product :=
  db.products.find? (fun p => p.id == productId)

/-- `prisma.location.findUnique` (existence only). -/
def hasLocation (db : DB) (locationId : Nat) : Bool :=
  db.locations.contains locationId

/-- Result of `stockService.adjustStockLevel`: the resulting quantity and
whether the low-stock trigger fired. -/
structure AdjustResult where
  quantity : Int
  lowStockTriggered : Bool
deriving DecidableEq, Repr

/-- `stockService.adjustStockLevel` (`stock.service.ts`): rejects a zero
change; missing product or location surfaces as `NotFoundError` (the source
translates the foreign-key violation of the upsert); upserts the stock row;
if `checkNegative` and the post-write quantity is negative, raises the
insufficient-stock `ConflictError` (the built message interpolates the
requested change and `newQuantity - quantityChange` as "Available"); finally
fires the low-stock trigger iff `reorderLevel > 0`, `newQuantity ≤
reorderLevel` and `newQuantity - quantityChange > reorderLevel`. The trigger
is fire-and-forget: when the environment makes delivery fail (`notifyFails`),
the failure is caught and the adjustment still succeeds, only the delivered
alert is missing. -/
def adjustStockLevel (db : DB) (productId locationId : Nat) (quantityChange : Int)
    (checkNegative : Bool) (notifyFails : Bool) : Except Err (DB × AdjustResult) :=
  if quantityChange = 0 then .error .badRequestZeroChange
  else
    match findProduct db productId with
    | none => .error .notFoundEntity
    | some product =>
      if hasLocation db locationId then
        let res := upsertStock db.stock productId locationId quantityChange
        let newQuantity := res.2
        if checkNegative && decide (newQuantity < 0) then
          .error (.conflictInsufficientStock productId locationId quantityChange
            (newQuantity - quantityChange))
        else
          let oldQuantity := newQuantity - quantityChange
          let triggered := decide (0 < product.reorderLevel)
            && decide (newQuantity ≤ product.reorderLevel)
            && decide (product.reorderLevel < oldQuantity)
          let db' : DB :=
            { db with
              stock := res.1
              alerts :=
                if triggered && !notifyFails then
                  db.alerts ++ [⟨productId, locationId, newQuantity⟩]
                else db.alerts }
          .ok (db', ⟨newQuantity, triggered⟩)
      else .error .notFoundEntity

/-- `CreateAdjustmentInput` (`transaction.validator.ts`): the validator
requires a positive integer `quantityChange` and an adjustment `type`;
the positivity constraint appears as a hypothesis where a theorem needs it. -/
structure CreateAdjustmentInput where
  productId : Nat
  locationId : Nat
  quantityChange : Int
  adjType : TransactionType
deriving DecidableEq, Repr

/-- `CreateTransferInput` (`transaction.validator.ts`). -/
structure CreateTransferInput where
  productId : Nat
  sourceLocationId : Nat
  destinationLocationId : Nat
  quantity : Int
deriving DecidableEq, Repr

/-- Body of `transactionService.recordAdjustment`'s `prisma.$transaction`
callback: flips the sign for `ADJUSTMENT_OUT`, enables the negative check
only for `ADJUSTMENT_OUT`, adjusts the stock level, appends the
`Transaction` row (source populated for OUT, destination for IN) and the
audit entry. -/
def recordAdjustmentTx (db : DB) (userId : Nat) (data : CreateAdjustmentInput)
    (notifyFails : Bool) : Except Err (DB × TxRow) :=
  let actualQuantityChange :=
    if data.adjType == .ADJUSTMENT_IN then data.quantityChange else -data.quantityChange
  let checkNegative := data.adjType == .ADJUSTMENT_OUT
  match adjustStockLevel db data.productId data.locationId actualQuantityChange
      checkNegative notifyFails with
  | .error e => .error e
  | .ok (db1, _) =>
    let t : TxRow :=
      { ttype := data.adjType
        productId := data.productId
        quantityChange := actualQuantityChange
        userId := userId
        sourceLocationId :=
          if data.adjType == .ADJUSTMENT_OUT then some data.locationId else none
        destinationLocationId :=
          if data.adjType == .ADJUSTMENT_IN then some data.locationId else none
        relatedPoId := none
        relatedSoId := none }
    .ok ({ db1 with
            txs := db1.txs ++ [t]
            audits := db1.audits ++ [⟨userId, "STOCK_ADJUSTMENT"⟩] }, t)

/-- `transactionService.recordAdjustment`: the transaction body run under
`prisma.$transaction` (errors roll everything back). -/
def recordAdjustment (db : DB) (userId : Nat) (data : CreateAdjustmentInput)
    (notifyFails : Bool) : DB × Except Err TxRow :=
  atomically db (recordAdjustmentTx db userId data notifyFails)

/-- Body of `transactionService.recordTransfer`: rejects equal locations and
non-positive quantity (in the source these two checks precede the
transaction — observationally the same), decrements the source with the
negative check, increments the destination without it, then appends the
TRANSFER_OUT and TRANSFER_IN rows — both rows carry *both* location ids
("track where it went"/"came from") — and the audit entry. -/
def recordTransferTx (db : DB) (userId : Nat) (data : CreateTransferInput)
    (notifyFails : Bool) : Except Err (DB × (TxRow × TxRow)) :=
  if data.sourceLocationId == data.destinationLocationId then
    .error .badRequestSameLocation
  else if data.quantity ≤ 0 then .error .badRequestNonPositiveQuantity
  else
    match adjustStockLevel db data.productId data.sourceLocationId (-data.quantity)
        true notifyFails with
    | .error e => .error e
    | .ok (db1, _) =>
      match adjustStockLevel db1 data.productId data.destinationLocationId data.quantity
          false notifyFails with
      | .error e => .error e
      | .ok (db2, _) =>
        let outTx : TxRow :=
          { ttype := .TRANSFER_OUT
            productId := data.productId
            quantityChange := -data.quantity
            userId := userId
            sourceLocationId := some data.sourceLocationId
            destinationLocationId := some data.destinationLocationId
            relatedPoId := none
            relatedSoId := none }
        let inTx : TxRow :=
          { ttype := .TRANSFER_IN
            productId := data.productId
            quantityChange := data.quantity
            userId := userId
            sourceLocationId := some data.sourceLocationId
            destinationLocationId := some data.destinationLocationId
            relatedPoId := none
            relatedSoId := none }
        .ok ({ db2 with
                txs := db2.txs ++ [outTx, inTx]
                audits := db2.audits ++ [⟨userId, "STOCK_TRANSFER"⟩] },
             (outTx, inTx))

/-- `transactionService.recordTransfer` under `prisma.$transaction`. -/
def recordTransfer (db : DB) (userId : Nat) (data : CreateTransferInput)
    (notifyFails : Bool) : DB × Except Err (TxRow × TxRow) :=
  atomically db (recordTransferTx db userId data notifyFails)

/-- `transactionService.recordPurchaseReceipt`, called with the caller's
transaction client: rejects non-positive quantity, increases the stock
(no negative check) and appends the PURCHASE row (destination populated,
`relatedPoId` set). The source forwards its client through
`prismaClient instanceof PrismaClient ? prismaClient : undefined`; the
interactive transaction client is a proxy over the `PrismaClient` instance,
so the check passes it through — modelled as plain state threading. -/
def recordPurchaseReceiptTx (db : DB) (userId productId destinationLocationId : Nat)
    (quantityChange : Int) (relatedPoId : Nat) (notifyFails : Bool) :
    Except Err (DB × TxRow) :=
  if quantityChange ≤ 0 then .error .badRequestNonPositiveQuantity
  else
    match adjustStockLevel db productId destinationLocationId quantityChange
        false notifyFails with
    | .error e => .error e
    | .ok (db1, _) =>
      let t : TxRow :=
        { ttype := .PURCHASE
          productId := productId
          quantityChange := quantityChange
          userId := userId
          sourceLocationId := none
          destinationLocationId := some destinationLocationId
          relatedPoId := some relatedPoId
          relatedSoId := none }
      .ok ({ db1 with txs := db1.txs ++ [t] }, t)

/-- `transactionService.recordSaleShipment`, called with the caller's
transaction client: rejects non-positive quantity, stores the change as a
negative number, decrements the stock *with* the negative check and appends
the SALE row (source populated, `relatedSoId` set). -/
def recordSaleShipmentTx (db : DB) (userId productId sourceLocationId : Nat)
    (quantityChange : Int) (relatedSoId : Nat) (notifyFails : Bool) :
    Except Err (DB × TxRow) :=
  if quantityChange ≤ 0 then .error .badRequestNonPositiveQuantity
  else
    match adjustStockLevel db productId sourceLocationId (-quantityChange)
        true notifyFails with
    | .error e => .error e
    | .ok (db1, _) =>
      let t : TxRow :=
        { ttype := .SALE
          productId := productId
          quantityChange := -quantityChange
          userId := userId
          sourceLocationId := some sourceLocationId
          destinationLocationId := none
          relatedPoId := none
          relatedSoId := some relatedSoId }
      .ok ({ db1 with txs := db1.txs ++ [t] }, t)

/-- `calculateOverallPOStatus` (`purchaseOrder.service.ts`): PENDING on an
empty item list; else PENDING when nothing received, PARTIAL when strictly
between, RECEIVED when total received reaches total ordered. -/
def calculateOverallPOStatus (items : List POItem) : OrderStatus :=
  if items.isEmpty then .PENDING
  else
    let totalOrdered : Int := (items.map (fun i => i.quantityOrdered)).sum
    let totalReceived : Int := (items.map (fun i => i.quantityReceived)).sum
    if totalReceived = 0 then .PENDING
    else if totalReceived < totalOrdered then .PARTIAL
    else .RECEIVED

/-- `calculateOverallSOStatus` (`salesOrder.service.ts`): same shape with
`quantityShipped` and SHIPPED. -/
def calculateOverallSOStatus (items : List SOItem) : OrderStatus :=
  if items.isEmpty then .PENDING
  else
    let totalOrdered : Int := (items.map (fun i => i.quantityOrdered)).sum
    let totalShipped : Int := (items.map (fun i => i.quantityShipped)).sum
    if totalShipped = 0 then .PENDING
    else if totalShipped < totalOrdered then .PARTIAL
    else .SHIPPED

/-- `prisma.purchaseOrder.findUnique`. -/
def findPO (db : DB) (id : Nat) : Option PurchaseOrder :=
  db.purchaseOrders.find? (fun po => po.id == id)

/-- `prisma.salesOrder.findUnique`. -/
def findSO (db : DB) (id : Nat) : Option SalesOrder :=
  db.salesOrders.find? (fun so => so.id == id)

/-- `prisma.purchaseOrderItem.findUnique` with the membership condition
`{id: itemId, purchaseOrderId}`. -/
def findPOItem (po : PurchaseOrder) (itemId : Nat) : Option POItem :=
  po.items.find? (fun it => it.id == itemId)

/-- `prisma.salesOrderItem.findUnique` with the membership condition. -/
def findSOItem (so : SalesOrder) (itemId : Nat) : Option SOItem :=
  so.items.find? (fun it => it.id == itemId)

/-- `prisma.purchaseOrder.update` restricted to one order id. -/
def updatePO (db : DB) (id : Nat) (f : PurchaseOrder → PurchaseOrder) : DB :=
  { db with purchaseOrders :=
      db.purchaseOrders.map (fun po => if po.id == id then f po else po) }

/-- `prisma.salesOrder.update` restricted to one order id. -/
def updateSO (db : DB) (id : Nat) (f : SalesOrder → SalesOrder) : DB :=
  { db with salesOrders :=
      db.salesOrders.map (fun so => if so.id == id then f so else so) }

/-- `prisma.purchaseOrderItem.update` on one item of one order. -/
def updatePOItem (po : PurchaseOrder) (itemId : Nat) (f : POItem → POItem) :
    PurchaseOrder :=
  { po with items := po.items.map (fun it => if it.id == itemId then f it else it) }

/-- `prisma.salesOrderItem.update` on one item of one order. -/
def updateSOItem (so : SalesOrder) (itemId : Nat) (f : SOItem → SOItem) :
    SalesOrder :=
  { so with items := so.items.map (fun it => if it.id == itemId then f it else it) }

/-- The PO statuses in which `receivePurchaseOrderItem` allows receiving. -/
def allowedReceiveStatuses : List OrderStatus :=
  [.APPROVED, .PROCESSING, .PARTIAL, .RECEIVED]

/-- The SO statuses in which `shipSalesOrderItem` allows shipping. -/
def allowedShipStatuses : List OrderStatus :=
  [.APPROVED, .PROCESSING, .PARTIAL, .SHIPPED]

/-- Body of `purchaseOrderService.receivePurchaseOrderItem`'s transaction:
positivity check (in the source it precedes the transaction), item and
product lookup, status gate, over-receipt gate (message carries the
remaining amount), destination-location check, item counter increment,
`recordPurchaseReceipt` with the transaction client, status recomputation
(persisted only when it differs from the fetched header status), audit. -/
def receivePurchaseOrderItemTx (db : DB) (purchaseOrderId itemId : Nat)
    (quantityReceived : Int) (destinationLocationId : Nat) (userId : Nat)
    (notifyFails : Bool) : Except Err (DB × POItem) :=
  if quantityReceived ≤ 0 then .error .badRequestNonPositiveQuantity
  else
    match findPO db purchaseOrderId with
    | none => .error .notFoundEntity
    | some po =>
      match findPOItem po itemId with
      | none => .error .notFoundEntity
      | some poItem =>
        match findProduct db poItem.productId with
        | none => .error .notFoundEntity
        | some _ =>
          if !(allowedReceiveStatuses.contains po.status) then
            .error (.conflictOrderStatus po.status)
          else if poItem.quantityOrdered < poItem.quantityReceived + quantityReceived then
            .error (.badRequestOverFulfill
              (poItem.quantityOrdered - poItem.quantityReceived))
          else if !(hasLocation db destinationLocationId) then .error .notFoundEntity
          else
            let updatedItem :=
              { poItem with quantityReceived := poItem.quantityReceived + quantityReceived }
            let db1 := updatePO db purchaseOrderId
              (fun p => updatePOItem p itemId
                (fun it => { it with quantityReceived := it.quantityReceived + quantityReceived }))
            match recordPurchaseReceiptTx db1 userId poItem.productId destinationLocationId
                quantityReceived purchaseOrderId notifyFails with
            | .error e => .error e
            | .ok (db2, _) =>
              let allItems :=
                match findPO db2 purchaseOrderId with
                | some p => p.items
                | none => []
              let newOverallStatus := calculateOverallPOStatus allItems
              let db3 :=
                if po.status != newOverallStatus then
                  updatePO db2 purchaseOrderId (fun p => { p with status := newOverallStatus })
                else db2
              .ok ({ db3 with audits := db3.audits ++ [⟨userId, "RECEIVE_PO_ITEM"⟩] },
                   updatedItem)

/-- `purchaseOrderService.receivePurchaseOrderItem` under
`prisma.$transaction`. -/
def receivePurchaseOrderItem (db : DB) (purchaseOrderId itemId : Nat)
    (quantityReceived : Int) (destinationLocationId : Nat) (userId : Nat)
    (notifyFails : Bool) : DB × Except Err POItem :=
  atomically db (receivePurchaseOrderItemTx db purchaseOrderId itemId quantityReceived
    destinationLocationId userId notifyFails)

/-- Body of `salesOrderService.shipSalesOrderItem`'s transaction: positivity
check, item and product lookup, status gate, over-shipment gate (message
carries the remaining amount), source-location check, `recordSaleShipment`
first (it enforces the non-negative stock), then the item counter increment,
then status recomputation guarded against terminal statuses, audit. -/
def shipSalesOrderItemTx (db : DB) (salesOrderId itemId : Nat)
    (quantityShipped : Int) (sourceLocationId : Nat) (userId : Nat)
    (notifyFails : Bool) : Except Err (DB × SOItem) :=
  if quantityShipped ≤ 0 then .error .badRequestNonPositiveQuantity
  else
    match findSO db salesOrderId with
    | none => .error .notFoundEntity
    | some so =>
      match findSOItem so itemId with
      | none => .error .notFoundEntity
      | some soItem =>
        match findProduct db soItem.productId with
        | none => .error .notFoundEntity
        | some _ =>
          if !(allowedShipStatuses.contains so.status) then
            .error (.conflictOrderStatus so.status)
          else if soItem.quantityOrdered - soItem.quantityShipped < quantityShipped then
            .error (.badRequestOverFulfill
              (soItem.quantityOrdered - soItem.quantityShipped))
          else if !(hasLocation db sourceLocationId) then .error .notFoundEntity
          else
            match recordSaleShipmentTx db userId soItem.productId sourceLocationId
                quantityShipped salesOrderId notifyFails with
            | .error e => .error e
            | .ok (db1, _) =>
              let updatedItem :=
                { soItem with quantityShipped := soItem.quantityShipped + quantityShipped }
              let db2 := updateSO db1 salesOrderId
                (fun s => updateSOItem s itemId
                  (fun it => { it with quantityShipped := it.quantityShipped + quantityShipped }))
              let allItems :=
                match findSO db2 salesOrderId with
                | some s => s.items
                | none => []
              let newOverallStatus := calculateOverallSOStatus allItems
              let terminalStatuses : List OrderStatus := [.COMPLETED, .CANCELLED]
              let db3 :=
                if so.status != newOverallStatus && !(terminalStatuses.contains so.status) then
                  updateSO db2 salesOrderId (fun s => { s with status := newOverallStatus })
                else db2
              .ok ({ db3 with audits := db3.audits ++ [⟨userId, "SHIP_SO_ITEM"⟩] },
                   updatedItem)

/-- `salesOrderService.shipSalesOrderItem` under `prisma.$transaction`. -/
def shipSalesOrderItem (db : DB) (salesOrderId itemId : Nat)
    (quantityShipped : Int) (sourceLocationId : Nat) (userId : Nat)
    (notifyFails : Bool) : DB × Except Err SOItem :=
  atomically db (shipSalesOrderItemTx db salesOrderId itemId quantityShipped
    sourceLocationId userId notifyFails)

/-- The `allowedTransitions` table of `updatePurchaseOrderStatus`
(`purchaseOrder.service.ts`): statuses without an entry (SHIPPED, COMPLETED,
CANCELLED) allow no transition. -/
def allowedPOTransitions : OrderStatus → List OrderStatus
  | .PENDING => [.APPROVED, .CANCELLED]
  | .APPROVED => [.PROCESSING, .CANCELLED, .RECEIVED, .PARTIAL]
  | .PROCESSING => [.RECEIVED, .PARTIAL, .CANCELLED]
  | .PARTIAL => [.RECEIVED, .COMPLETED, .CANCELLED]
  | .RECEIVED => [.COMPLETED, .CANCELLED]
  | _ => []

/-- `purchaseOrderService.updatePurchaseOrderStatus`: missing order fails
`NotFoundError`; a transition outside the table fails `BadRequestError`
("Cannot transition PO from status ... to ...") before any write; otherwise
the status is persisted, the status-change notification to the order's
creator is fired and the audit entry appended. (The optional `notes` merge
is not modelled: no claim touches it.) -/
def updatePurchaseOrderStatus (db : DB) (id : Nat) (status : OrderStatus)
    (userId : Nat) : DB × Except Err PurchaseOrder :=
  match findPO db id with
  | none => (db, .error .notFoundEntity)
  | some po =>
    if !((allowedPOTransitions po.status).contains status) then
      (db, .error (.badRequestTransition po.status status))
    else
      let db1 := updatePO db id (fun p => { p with status := status })
      let db2 :=
        { db1 with
          notifs := db1.notifs ++ [⟨id, true, po.orderNumber, status, po.userId⟩]
          audits := db1.audits ++ [⟨userId, "UPDATE_PURCHASE_ORDER_STATUS"⟩] }
      (db2, .ok { po with status := status })

/-- `salesOrderService.updateSalesOrderStatus`: missing order fails
`NotFoundError`; when the current status is terminal (CANCELLED/COMPLETED)
and a *different* status is requested it fails `BadRequestError` ("Cannot
change status of a ... order"); with no status requested nothing is updated
and no notification fires; otherwise the requested status — whatever it is —
is persisted, the notification to the creator fires and the audit entry is
appended. (`shippingDate`/`notes` are not modelled: no claim touches them.) -/
def updateSalesOrderStatus (db : DB) (id : Nat) (status : Option OrderStatus)
    (userId : Nat) : DB × Except Err SalesOrder :=
  match findSO db id with
  | none => (db, .error .notFoundEntity)
  | some so =>
    if (so.status == .CANCELLED || so.status == .COMPLETED)
        && (match status with | some s => s != so.status | none => false) then
      (db, .error (.badRequestTransition so.status (status.getD so.status)))
    else
      match status with
      | none => (db, .ok so)
      | some s =>
        let db1 := updateSO db id (fun o => { o with status := s })
        let db2 :=
          { db1 with
            notifs := db1.notifs ++ [⟨id, false, so.orderNumber, s, so.userId⟩]
            audits := db1.audits ++ [⟨userId, "UPDATE_SALES_ORDER_STATUS"⟩] }
        (db2, .ok { so with status := s })

/-!  The operation alphabet for whole-history claims (C1, C5): every public
service operation that can mutate stock, ledger, orders or notifications. -/

/-- One public service call. -/
inductive Op
  | adjustment (userId : Nat) (data : CreateAdjustmentInput)
  | transfer (userId : Nat) (data : CreateTransferInput)
  | receiveItem (purchaseOrderId itemId : Nat) (quantity : Int)
      (destinationLocationId userId : Nat)
  | shipItem (salesOrderId itemId : Nat) (quantity : Int)
      (sourceLocationId userId : Nat)
  | poStatusUpdate (id : Nat) (status : OrderStatus) (userId : Nat)
  | soStatusUpdate (id : Nat) (status : Option OrderStatus) (userId : Nat)
deriving DecidableEq, Repr

/-- Observable effect of one service call: the committed state on success,
the unchanged state on failure (each service wraps its work in
`prisma.$transaction`). -/
def applyOp (notifyFails : Bool) (db : DB) (op : Op) : DB :=
  match op with
  | .adjustment u d => (recordAdjustment db u d notifyFails).1
  | .transfer u d => (recordTransfer db u d notifyFails).1
  | .receiveItem poId itemId q loc u =>
      (receivePurchaseOrderItem db poId itemId q loc u notifyFails).1
  | .shipItem soId itemId q loc u =>
      (shipSalesOrderItem db soId itemId q loc u notifyFails).1
  | .poStatusUpdate i s u => (updatePurchaseOrderStatus db i s u).1
  | .soStatusUpdate i s u => (updateSalesOrderStatus db i s u).1

/-- A whole history of service calls. -/
def runOps (notifyFails : Bool) (db : DB) (ops : List Op) : DB :=
  ops.foldl (applyOp notifyFails) db

/-- The request validator (`transaction.validator.ts`) only admits
`ADJUSTMENT_IN`/`ADJUSTMENT_OUT` as an adjustment type; other ops carry no
enum field to restrict. -/
def opValid : Op → Bool
  | .adjustment _ d =>
      d.adjType == TransactionType.ADJUSTMENT_IN
        || d.adjType == TransactionType.ADJUSTMENT_OUT
  | _ => true

/-- Whether a (product, location) pair has a `StockLevel` row. -/
def hasStockRow (db : DB) (productId locationId : Nat) : Bool :=
  (findStock db.stock productId locationId).isSome

/-- The op will not hit `upsertStock`'s create branch with a negative
change (the branch that clamps the initial quantity to `0` while the caller
still logs the negative change — the behaviour claim C10 describes). -/
def opClampFree (db : DB) : Op → Bool
  | .adjustment _ d =>
      let qc := if d.adjType == TransactionType.ADJUSTMENT_IN
        then d.quantityChange else -d.quantityChange
      decide (0 ≤ qc) || hasStockRow db d.productId d.locationId
  | .transfer _ d =>
      decide (d.quantity ≤ 0) || hasStockRow db d.productId d.sourceLocationId
  | .shipItem soId itemId q loc _ =>
      decide (q ≤ 0)
        || (match findSO db soId with
            | none => true
            | some so =>
              match findSOItem so itemId with
              | none => true
              | some it => hasStockRow db it.productId loc)
  | _ => true

/-- All ops of the history are validator-conformant and clamp-free in the
states in which they run. -/
def cleanRun (notifyFails : Bool) (db : DB) : List Op → Bool
  | [] => true
  | op :: ops =>
      opValid op && opClampFree db op
        && cleanRun notifyFails (applyOp notifyFails db op) ops

/-- The ledger sum exactly as the spec's claimed identity computes it:
`sum(quantityChange where destinationLocationId == L) -
 sum(quantityChange where sourceLocationId == L)` for the product. -/
def claimedLedgerSum (txs : List TxRow) (productId locationId : Nat) : Int :=
  (txs.map (fun t =>
      if t.productId == productId && t.destinationLocationId == some locationId
      then t.quantityChange else 0)).sum
  - (txs.map (fun t =>
      if t.productId == productId && t.sourceLocationId == some locationId
      then t.quantityChange else 0)).sum

/-- The inbound transaction types: their `quantityChange` is applied at the
destination; the other three types apply theirs at the source. -/
def isInbound : TransactionType → Bool
  | .PURCHASE | .ADJUSTMENT_IN | .TRANSFER_IN => true
  | .SALE | .ADJUSTMENT_OUT | .TRANSFER_OUT => false

/-- Contribution of one ledger row to a (product, location) balance when
each row is attributed to the single location its type acts on. -/
def contribution (productId locationId : Nat) (t : TxRow) : Int :=
  if t.productId == productId then
    if isInbound t.ttype then
      if t.destinationLocationId == some locationId then t.quantityChange else 0
    else
      if t.sourceLocationId == some locationId then t.quantityChange else 0
  else 0

/-- Type-attributed ledger sum for a (product, location) pair. -/
def typedLedgerSum (txs : List TxRow) (productId locationId : Nat) : Int :=
  (txs.map (contribution productId locationId)).sum

/-- The consistency invariant: every (product, location) balance equals the
type-attributed ledger sum. -/
def LedgerOK (db : DB) : Prop :=
  ∀ productId locationId,
    stockQty db.stock productId locationId = typedLedgerSum db.txs productId locationId

/-! Concrete fixtures for witnesses and counterexamples. -/

/-- A minimal catalogue: product 1 (reorder level 0), locations 1 and 2. -/
def exampleDB : DB :=
  { products := [⟨1, 0⟩], locations := [1, 2], stock := [], txs := [],
    purchaseOrders := [], salesOrders := [], notifs := [], alerts := [],
    audits := [] }

/-- History: adjust 5 IN at location 1, adjust 3 OUT at location 1. -/
def c1Ops : List Op :=
  [.adjustment 7 ⟨1, 1, 5, .ADJUSTMENT_IN⟩,
   .adjustment 7 ⟨1, 1, 3, .ADJUSTMENT_OUT⟩]

/-- History: the two adjustments followed by a transfer of 2 to location 2. -/
def c1OpsT : List Op :=
  c1Ops ++ [.transfer 7 ⟨1, 1, 2, 2⟩]

/-- Five units of product 1 in stock at location 1. -/
def c3DB : DB := { exampleDB with stock := [⟨1, 1, 5⟩] }

/-- Product 1 with reorder level 10 and twelve units at location 1. -/
def c8DB : DB :=
  { exampleDB with products := [⟨1, 10⟩], stock := [⟨1, 1, 12⟩] }

/-- `c8DB` after an enforced adjustment by `-3`: the balance drops to 9,
crossing the reorder level, and the delivered low-stock alert is logged. -/
def c8DBAfter : DB :=
  { exampleDB with
    products := [⟨1, 10⟩], stock := [⟨1, 1, 9⟩], alerts := [⟨1, 1, 9⟩] }

/-- Twenty units of product 1 at location 1, nothing at location 2. -/
def c7DB : DB := { exampleDB with stock := [⟨1, 1, 20⟩] }

/-- Item lookup through the order, as the services address items
(`where: { id: itemId, purchaseOrderId }`). -/
def getPOItem (db : DB) (poId itemId : Nat) : Option POItem :=
  match findPO db poId with
  | some po => findPOItem po itemId
  | none => none

/-- Item lookup through the sales order. -/
def getSOItem (db : DB) (soId itemId : Nat) : Option SOItem :=
  match findSO db soId with
  | some so => findSOItem so itemId
  | none => none

/-- A purchase order in APPROVED state: one item, 10 ordered, 0 received. -/
def c9DB : DB :=
  { exampleDB with
    purchaseOrders := [⟨1, 100, 5, .APPROVED, [⟨1, 1, 10, 0⟩]⟩] }

/-- A pending sales order with no items. -/
def c6SODB : DB :=
  { exampleDB with salesOrders := [⟨1, 200, 5, .PENDING, []⟩] }

/-- A sales order ready to ship: APPROVED, one item 10 ordered 7 shipped,
stock 50 at location 1. -/
def c5SODB : DB :=
  { exampleDB with
    stock := [⟨1, 1, 50⟩],
    salesOrders := [⟨1, 200, 5, .APPROVED, [⟨1, 1, 10, 7⟩]⟩] }

/-- A purchase order mid-receipt: PARTIAL, one item 10 ordered 7 received. -/
def c5PODB : DB :=
  { exampleDB with
    purchaseOrders := [⟨1, 100, 5, .PARTIAL, [⟨1, 1, 10, 7⟩]⟩] }

/-- A completed purchase order (terminal status). -/
def c4TermDB : DB :=
  { exampleDB with purchaseOrders := [⟨1, 100, 5, .COMPLETED, [⟨1, 1, 10, 7⟩]⟩] }

/-- A completed sales order (terminal status). -/
def c6SOTermDB : DB :=
  { exampleDB with salesOrders := [⟨1, 200, 5, .COMPLETED, []⟩] }

/-! Helper lemmas about the row stores. -/

/-- `find?` through a keyed in-place update: when the update preserves both
the update condition and the search predicate, it commutes with `find?`. -/
theorem find?_map_cond {α : Type} (c q : α → Bool) (f : α → α)
    (hc : ∀ a, c (f a) = c a) (hq : ∀ a, q (f a) = q a) (xs : List α) :
    (xs.map (fun a => if c a then f a else a)).find? q
      = (xs.find? q).map (fun a => if c a then f a else a) := by
  induction xs with
  | nil => rfl
  | cons x xs ih =>
    by_cases hcx : c x
    · by_cases hqx : q x
      · simp [List.find?_cons, hcx, hq, hqx]
      · simp only [List.map_cons, List.find?_cons, hcx, if_true, hq x, hqx]
        simpa [hcx, hqx] using ih
    · by_cases hqx : q x
      · simp [List.find?_cons, hcx, hqx]
      · simp only [List.map_cons, List.find?_cons, hcx, if_false, hqx]
        simpa [hcx, hqx] using ih

/-- `findStock` through the upsert's update branch. -/
theorem findStock_update (rows : List StockRow) (p l : Nat) (qc : Int) (p' l' : Nat) :
    findStock (rows.map (fun s =>
        if s.productId == p && s.locationId == l then
          { s with quantity := s.quantity + qc } else s)) p' l'
      = (findStock rows p' l').map (fun s =>
          if s.productId == p && s.locationId == l then
            { s with quantity := s.quantity + qc } else s) := by
  unfold findStock
  exact find?_map_cond (fun s => s.productId == p && s.locationId == l)
    (fun r => r.productId == p' && r.locationId == l')
    (fun s => { s with quantity := s.quantity + qc })
    (fun a => rfl) (fun a => rfl) rows

/-- Quantities after `upsertStock`, provided the create branch is not hit
with a negative change: the touched key moves by `quantityChange`, every
other key is untouched. -/
theorem stockQty_upsert (rows : List StockRow) (p l : Nat) (qc : Int)
    (hcf : 0 ≤ qc ∨ (findStock rows p l).isSome = true) (p' l' : Nat) :
    stockQty (upsertStock rows p l qc).1 p' l'
      = stockQty rows p' l' + (if p' = p ∧ l' = l then qc else 0) := by
  cases hfind : findStock rows p l with
  | none =>
    have hq : 0 ≤ qc := by
      rcases hcf with h | h
      · exact h
      · rw [hfind] at h; simp at h
    have hmax : max 0 qc = qc := max_eq_right hq
    unfold upsertStock
    rw [hfind]
    by_cases hkey : p' = p ∧ l' = l
    · obtain ⟨rfl, rfl⟩ := hkey
      unfold stockQty findStock
      unfold findStock at hfind
      rw [List.find?_append, hfind]
      simp [hmax]
    · unfold stockQty findStock
      unfold findStock at hfind
      rw [List.find?_append]
      have hrow : (List.find? (fun r => r.productId == p' && r.locationId == l')
          [(⟨p, l, max 0 qc⟩ : StockRow)]) = none := by
        rw [List.find?_cons_of_neg]
        · rfl
        · simp only [Bool.and_eq_true, beq_iff_eq]
          rintro ⟨h1, h2⟩
          exact hkey ⟨h1.symm, h2.symm⟩
      cases hfound : List.find? (fun r => r.productId == p' && r.locationId == l') rows with
      | none => simp [hfound, hrow, hkey]
      | some r => simp [hfound, hkey]
  | some r =>
    unfold upsertStock
    rw [hfind]
    unfold stockQty
    rw [findStock_update]
    by_cases hkey : p' = p ∧ l' = l
    · obtain ⟨rfl, rfl⟩ := hkey
      rw [hfind]
      have hpred := List.find?_some hfind
      simp only [Bool.and_eq_true, beq_iff_eq] at hpred
      simp [hfind, hpred.1, hpred.2]
    · cases hfind' : findStock rows p' l' with
      | none => simp [hkey]
      | some r' =>
        have hfind'' : List.find? (fun r => r.productId == p' && r.locationId == l') rows
            = some r' := hfind'
        have hpred'' := List.find?_some hfind''
        simp only [Bool.and_eq_true, beq_iff_eq] at hpred''
        have hnot : ¬(r'.productId == p && r'.locationId == l) = true := by
          intro hb
          simp only [Bool.and_eq_true, beq_iff_eq] at hb
          exact hkey ⟨hpred''.1 ▸ hb.1, hpred''.2 ▸ hb.2⟩
        have hcond : ¬(r'.productId = p ∧ r'.locationId = l) := by
          rintro ⟨h1, h2⟩
          exact hnot (by simp [h1, h2])
        simp [hcond, hkey]

/-- An upsert never moves the quantity of a different key (no proviso
needed). -/
theorem stockQty_upsert_other (rows : List StockRow) (p l : Nat) (qc : Int)
    (p' l' : Nat) (hkey : ¬(p' = p ∧ l' = l)) :
    stockQty (upsertStock rows p l qc).1 p' l' = stockQty rows p' l' := by
  cases hfind : findStock rows p l with
  | none =>
    unfold upsertStock
    rw [hfind]
    unfold stockQty findStock
    rw [List.find?_append]
    have hrow : (List.find? (fun r => r.productId == p' && r.locationId == l')
        [(⟨p, l, max 0 qc⟩ : StockRow)]) = none := by
      rw [List.find?_cons_of_neg]
      · rfl
      · simp only [Bool.and_eq_true, beq_iff_eq]
        rintro ⟨h1, h2⟩
        exact hkey ⟨h1.symm, h2.symm⟩
    cases hfound : List.find? (fun r => r.productId == p' && r.locationId == l') rows with
    | none => simp [hfound, hrow]
    | some r => simp [hfound]
  | some r =>
    unfold upsertStock
    rw [hfind]
    unfold stockQty
    rw [findStock_update]
    cases hfind' : findStock rows p' l' with
    | none => simp
    | some r' =>
      have hfind'' : List.find? (fun r => r.productId == p' && r.locationId == l') rows
          = some r' := hfind'
      have hpred'' := List.find?_some hfind''
      simp only [Bool.and_eq_true, beq_iff_eq] at hpred''
      have hcond : ¬(r'.productId = p ∧ r'.locationId = l) := by
        rintro ⟨h1, h2⟩
        exact hkey ⟨hpred''.1 ▸ h1, hpred''.2 ▸ h2⟩
      simp [hcond]

/-- The quantity `upsertStock` reports, under the same proviso. -/
theorem upsertStock_snd (rows : List StockRow) (p l : Nat) (qc : Int)
    (hcf : 0 ≤ qc ∨ (findStock rows p l).isSome = true) :
    (upsertStock rows p l qc).2 = stockQty rows p l + qc := by
  cases hfind : findStock rows p l with
  | none =>
    have hq : 0 ≤ qc := by
      rcases hcf with h | h
      · exact h
      · rw [hfind] at h; simp at h
    unfold upsertStock stockQty
    rw [hfind]
    simp [max_eq_right hq]
  | some r =>
    unfold upsertStock stockQty
    rw [hfind]

/-- `findPO` through `updatePO`, for id-preserving updates. -/
theorem findPO_updatePO (db : DB) (i : Nat) (f : PurchaseOrder → PurchaseOrder)
    (hf : ∀ po, (f po).id = po.id) (j : Nat) :
    findPO (updatePO db i f) j
      = (findPO db j).map (fun po => if po.id == i then f po else po) := by
  unfold findPO updatePO
  exact find?_map_cond (fun po => po.id == i) (fun po => po.id == j) f
    (fun a => by simp [hf]) (fun a => by simp [hf]) db.purchaseOrders

/-- `findSO` through `updateSO`, for id-preserving updates. -/
theorem findSO_updateSO (db : DB) (i : Nat) (f : SalesOrder → SalesOrder)
    (hf : ∀ so, (f so).id = so.id) (j : Nat) :
    findSO (updateSO db i f) j
      = (findSO db j).map (fun so => if so.id == i then f so else so) := by
  unfold findSO updateSO
  exact find?_map_cond (fun so => so.id == i) (fun so => so.id == j) f
    (fun a => by simp [hf]) (fun a => by simp [hf]) db.salesOrders

/-- `findPOItem` through `updatePOItem`, for id-preserving updates. -/
theorem findPOItem_updatePOItem (po : PurchaseOrder) (j : Nat) (g : POItem → POItem)
    (hg : ∀ it, (g it).id = it.id) (k : Nat) :
    findPOItem (updatePOItem po j g) k
      = (findPOItem po k).map (fun it => if it.id == j then g it else it) := by
  unfold findPOItem updatePOItem
  exact find?_map_cond (fun it => it.id == j) (fun it => it.id == k) g
    (fun a => by simp [hg]) (fun a => by simp [hg]) po.items

/-- `findSOItem` through `updateSOItem`, for id-preserving updates. -/
theorem findSOItem_updateSOItem (so : SalesOrder) (j : Nat) (g : SOItem → SOItem)
    (hg : ∀ it, (g it).id = it.id) (k : Nat) :
    findSOItem (updateSOItem so j g) k
      = (findSOItem so k).map (fun it => if it.id == j then g it else it) := by
  unfold findSOItem updateSOItem
  exact find?_map_cond (fun it => it.id == j) (fun it => it.id == k) g
    (fun a => by simp [hg]) (fun a => by simp [hg]) so.items

/-- `getPOItem` only reads the purchase-order store. -/
theorem getPOItem_congr {db₁ db₂ : DB}
    (h : db₁.purchaseOrders = db₂.purchaseOrders) (poId itemId : Nat) :
    getPOItem db₁ poId itemId = getPOItem db₂ poId itemId := by
  unfold getPOItem findPO
  rw [h]

/-- `getSOItem` only reads the sales-order store. -/
theorem getSOItem_congr {db₁ db₂ : DB}
    (h : db₁.salesOrders = db₂.salesOrders) (soId itemId : Nat) :
    getSOItem db₁ soId itemId = getSOItem db₂ soId itemId := by
  unfold getSOItem findSO
  rw [h]

/-- A header-status write does not move any item. -/
theorem getPOItem_status_set (db : DB) (i : Nat) (s : OrderStatus)
    (poId itemId : Nat) :
    getPOItem (updatePO db i (fun p => { p with status := s })) poId itemId
      = getPOItem db poId itemId := by
  unfold getPOItem
  rw [findPO_updatePO db i (fun p => { p with status := s }) (fun po => rfl) poId]
  cases findPO db poId with
  | none => rfl
  | some po =>
    dsimp only [Option.map]
    split
    · rfl
    · rfl

/-- A header-status write does not move any sales item. -/
theorem getSOItem_status_set (db : DB) (i : Nat) (s : OrderStatus)
    (soId itemId : Nat) :
    getSOItem (updateSO db i (fun o => { o with status := s })) soId itemId
      = getSOItem db soId itemId := by
  unfold getSOItem
  rw [findSO_updateSO db i (fun o => { o with status := s }) (fun so => rfl) soId]
  cases findSO db soId with
  | none => rfl
  | some so =>
    dsimp only [Option.map]
    split
    · rfl
    · rfl

/-- `getPOItem` through an item update addressed by (order id, item id). -/
theorem getPOItem_updatePO_item (db : DB) (i j : Nat) (g : POItem → POItem)
    (hg : ∀ it, (g it).id = it.id) (poId itemId : Nat) :
    getPOItem (updatePO db i (fun p => updatePOItem p j g)) poId itemId
      = (getPOItem db poId itemId).map
          (fun it => if poId = i ∧ itemId = j then g it else it) := by
  unfold getPOItem
  rw [findPO_updatePO db i (fun p => updatePOItem p j g) (fun po => rfl) poId]
  cases hpo : findPO db poId with
  | none => rfl
  | some po =>
    dsimp only [Option.map]
    have hid : po.id = poId := by
      have := List.find?_some
        (show db.purchaseOrders.find? (fun p => p.id == poId) = some po from hpo)
      simpa using this
    by_cases hpi : poId = i
    · rw [if_pos (by simp [hid, hpi])]
      rw [findPOItem_updatePOItem po j g hg itemId]
      cases hit : findPOItem po itemId with
      | none => rfl
      | some it =>
        dsimp only [Option.map]
        have hitid : it.id = itemId := by
          have := List.find?_some
            (show po.items.find? (fun x => x.id == itemId) = some it from hit)
          simpa using this
        by_cases hij : itemId = j
        · rw [if_pos (by simp [hitid, hij]), if_pos ⟨hpi, hij⟩]
        · rw [if_neg (by simp [hitid, hij]), if_neg (by rintro ⟨-, h⟩; exact hij h)]
    · rw [if_neg (by simp [hid, hpi])]
      cases hit : findPOItem po itemId with
      | none => rfl
      | some it =>
        dsimp only [Option.map]
        rw [if_neg (by rintro ⟨h, -⟩; exact hpi h)]

/-- `getSOItem` through an item update addressed by (order id, item id). -/
theorem getSOItem_updateSO_item (db : DB) (i j : Nat) (g : SOItem → SOItem)
    (hg : ∀ it, (g it).id = it.id) (soId itemId : Nat) :
    getSOItem (updateSO db i (fun s => updateSOItem s j g)) soId itemId
      = (getSOItem db soId itemId).map
          (fun it => if soId = i ∧ itemId = j then g it else it) := by
  unfold getSOItem
  rw [findSO_updateSO db i (fun s => updateSOItem s j g) (fun so => rfl) soId]
  cases hso : findSO db soId with
  | none => rfl
  | some so =>
    dsimp only [Option.map]
    have hid : so.id = soId := by
      have := List.find?_some
        (show db.salesOrders.find? (fun s => s.id == soId) = some so from hso)
      simpa using this
    by_cases hpi : soId = i
    · rw [if_pos (by simp [hid, hpi])]
      rw [findSOItem_updateSOItem so j g hg itemId]
      cases hit : findSOItem so itemId with
      | none => rfl
      | some it =>
        dsimp only [Option.map]
        have hitid : it.id = itemId := by
          have := List.find?_some
            (show so.items.find? (fun x => x.id == itemId) = some it from hit)
          simpa using this
        by_cases hij : itemId = j
        · rw [if_pos (by simp [hitid, hij]), if_pos ⟨hpi, hij⟩]
        · rw [if_neg (by simp [hitid, hij]), if_neg (by rintro ⟨-, h⟩; exact hij h)]
    · rw [if_neg (by simp [hid, hpi])]
      cases hit : findSOItem so itemId with
      | none => rfl
      | some it =>
        dsimp only [Option.map]
        rw [if_neg (by rintro ⟨h, -⟩; exact hpi h)]

/-- The typed ledger sum distributes over appended rows. -/
theorem typedLedgerSum_append (txs ts : List TxRow) (p l : Nat) :
    typedLedgerSum (txs ++ ts) p l = typedLedgerSum txs p l + typedLedgerSum ts p l := by
  unfold typedLedgerSum
  rw [List.map_append, List.sum_append]

/-- `LedgerOK` is preserved by any step leaving stock and ledger alone. -/
theorem LedgerOK_unchanged {db db' : DB} (h : LedgerOK db)
    (hs : db'.stock = db.stock) (ht : db'.txs = db.txs) : LedgerOK db' := by
  intro p l
  rw [hs, ht]
  exact h p l

/-- `LedgerOK` is preserved by a step that moves one key by `qc` and appends
one row contributing `qc` at exactly that key. -/
theorem LedgerOK_step {db db' : DB} (p l : Nat) (qc : Int) (t : TxRow)
    (h : LedgerOK db)
    (hs : ∀ p' l', stockQty db'.stock p' l'
        = stockQty db.stock p' l' + (if p' = p ∧ l' = l then qc else 0))
    (ht : db'.txs = db.txs ++ [t])
    (hc : ∀ p' l', contribution p' l' t = if p' = p ∧ l' = l then qc else 0) :
    LedgerOK db' := by
  intro p' l'
  rw [hs, ht, typedLedgerSum_append, h p' l']
  simp [typedLedgerSum, hc p' l']

/-- `LedgerOK` is preserved by a transfer-shaped step: two keys move by
`-q`/`q` and two rows are appended contributing exactly those amounts. -/
theorem LedgerOK_step₂ {db db' : DB} (p l₁ l₂ : Nat) (q : Int) (t₁ t₂ : TxRow)
    (h : LedgerOK db)
    (hs : ∀ p' l', stockQty db'.stock p' l'
        = stockQty db.stock p' l' + (if p' = p ∧ l' = l₁ then -q else 0)
          + (if p' = p ∧ l' = l₂ then q else 0))
    (ht : db'.txs = db.txs ++ [t₁, t₂])
    (hc₁ : ∀ p' l', contribution p' l' t₁ = if p' = p ∧ l' = l₁ then -q else 0)
    (hc₂ : ∀ p' l', contribution p' l' t₂ = if p' = p ∧ l' = l₂ then q else 0) :
    LedgerOK db' := by
  intro p' l'
  rw [hs, ht, typedLedgerSum_append, h p' l']
  simp [typedLedgerSum, hc₁ p' l', hc₂ p' l']
  ring

/-- Effect of a successful `adjustStockLevel`: the stock is exactly the
upsert, the reported quantity is the upsert's, and no other store moves
(only the low-stock alert log may grow). -/
theorem adjustStockLevel_ok {db : DB} {p l : Nat} {qc : Int} {cn nf : Bool}
    {db' : DB} {r : AdjustResult}
    (h : adjustStockLevel db p l qc cn nf = .ok (db', r)) :
    db'.stock = (upsertStock db.stock p l qc).1 ∧
    r.quantity = (upsertStock db.stock p l qc).2 ∧
    db'.products = db.products ∧ db'.locations = db.locations ∧
    db'.txs = db.txs ∧ db'.purchaseOrders = db.purchaseOrders ∧
    db'.salesOrders = db.salesOrders ∧ db'.notifs = db.notifs ∧
    db'.audits = db.audits ∧ (cn = true → 0 ≤ r.quantity) := by
  unfold adjustStockLevel at h
  split at h
  · simp at h
  · split at h
    · simp at h
    · split at h
      · dsimp only at h
        split at h
        · simp at h
        case isFalse hneg =>
          rw [Except.ok.injEq, Prod.mk.injEq] at h
          obtain ⟨h1, h2⟩ := h
          subst h1
          subst h2
          refine ⟨rfl, rfl, rfl, rfl, rfl, rfl, rfl, rfl, rfl, fun hcn => ?_⟩
          subst hcn
          simp only [Bool.true_and, decide_eq_true_eq] at hneg
          show 0 ≤ (upsertStock db.stock p l qc).2
          omega
      · simp at h

/-- Effect of a successful `recordAdjustmentTx`: one upsert, one row with
the sign and the populated location side determined by the direction. -/
theorem recordAdjustmentTx_ok {db : DB} {u : Nat} {d : CreateAdjustmentInput}
    {nf : Bool} {db' : DB} {t : TxRow}
    (h : recordAdjustmentTx db u d nf = .ok (db', t)) :
    db'.stock = (upsertStock db.stock d.productId d.locationId
      (if d.adjType == TransactionType.ADJUSTMENT_IN
        then d.quantityChange else -d.quantityChange)).1 ∧
    db'.txs = db.txs ++ [t] ∧
    t = { ttype := d.adjType
          productId := d.productId
          quantityChange := (if d.adjType == TransactionType.ADJUSTMENT_IN
            then d.quantityChange else -d.quantityChange)
          userId := u
          sourceLocationId :=
            if d.adjType == TransactionType.ADJUSTMENT_OUT then some d.locationId else none
          destinationLocationId :=
            if d.adjType == TransactionType.ADJUSTMENT_IN then some d.locationId else none
          relatedPoId := none
          relatedSoId := none } ∧
    db'.purchaseOrders = db.purchaseOrders ∧
    db'.salesOrders = db.salesOrders ∧
    db'.notifs = db.notifs := by
  unfold recordAdjustmentTx at h
  dsimp only at h
  split at h
  · simp at h
  case h_2 db1 r heq =>
    rw [Except.ok.injEq, Prod.mk.injEq] at h
    obtain ⟨h1, h2⟩ := h
    subst h1
    subst h2
    obtain ⟨hs, _, _, _, ht, hpo, hso, hn, _⟩ := adjustStockLevel_ok heq
    exact ⟨hs, by rw [ht], rfl, hpo, hso, hn⟩

/-- Effect of a successful `recordTransferTx`: the guards held, the source
was decremented, the destination incremented, and the two transfer rows —
each carrying both location ids — appended. -/
theorem recordTransferTx_ok {db : DB} {u : Nat} {d : CreateTransferInput}
    {nf : Bool} {db' : DB} {ts : TxRow × TxRow}
    (h : recordTransferTx db u d nf = .ok (db', ts)) :
    d.sourceLocationId ≠ d.destinationLocationId ∧ 0 < d.quantity ∧
    db'.stock = (upsertStock
      ((upsertStock db.stock d.productId d.sourceLocationId (-d.quantity)).1)
      d.productId d.destinationLocationId d.quantity).1 ∧
    db'.txs = db.txs ++ [ts.1, ts.2] ∧
    ts.1 = { ttype := .TRANSFER_OUT
             productId := d.productId
             quantityChange := -d.quantity
             userId := u
             sourceLocationId := some d.sourceLocationId
             destinationLocationId := some d.destinationLocationId
             relatedPoId := none
             relatedSoId := none } ∧
    ts.2 = { ttype := .TRANSFER_IN
             productId := d.productId
             quantityChange := d.quantity
             userId := u
             sourceLocationId := some d.sourceLocationId
             destinationLocationId := some d.destinationLocationId
             relatedPoId := none
             relatedSoId := none } ∧
    db'.purchaseOrders = db.purchaseOrders ∧
    db'.salesOrders = db.salesOrders ∧
    db'.notifs = db.notifs ∧
    0 ≤ (upsertStock db.stock d.productId d.sourceLocationId (-d.quantity)).2 := by
  unfold recordTransferTx at h
  split at h
  · simp at h
  case isFalse hne =>
    split at h
    · simp at h
    case isFalse hq =>
      split at h
      · simp at h
      case h_2 db1 r₁ heq₁ =>
        split at h
        · simp at h
        case h_2 db2 r₂ heq₂ =>
          rw [Except.ok.injEq, Prod.mk.injEq] at h
          obtain ⟨h1, h2⟩ := h
          subst h1
          subst h2
          obtain ⟨hs₁, hq₁, _, _, ht₁, hpo₁, hso₁, hn₁, _, hnn₁⟩ :=
            adjustStockLevel_ok heq₁
          obtain ⟨hs₂, _, _, _, ht₂, hpo₂, hso₂, hn₂, _⟩ := adjustStockLevel_ok heq₂
          refine ⟨by simpa using hne, by omega, ?_, ?_, rfl, rfl, ?_, ?_, ?_, ?_⟩
          · rw [hs₂, hs₁]
          · rw [ht₂, ht₁]
          · rw [hpo₂, hpo₁]
          · rw [hso₂, hso₁]
          · rw [hn₂, hn₁]
          · rw [← hq₁]
            exact hnn₁ rfl

/-- Effect of a successful `recordPurchaseReceiptTx`. -/
theorem recordPurchaseReceiptTx_ok {db : DB} {u p loc : Nat} {q : Int}
    {poId : Nat} {nf : Bool} {db' : DB} {t : TxRow}
    (h : recordPurchaseReceiptTx db u p loc q poId nf = .ok (db', t)) :
    0 < q ∧
    db'.stock = (upsertStock db.stock p loc q).1 ∧
    db'.txs = db.txs ++ [t] ∧
    t = { ttype := .PURCHASE, productId := p, quantityChange := q, userId := u,
          sourceLocationId := none, destinationLocationId := some loc,
          relatedPoId := some poId, relatedSoId := none } ∧
    db'.purchaseOrders = db.purchaseOrders ∧
    db'.salesOrders = db.salesOrders ∧
    db'.notifs = db.notifs := by
  unfold recordPurchaseReceiptTx at h
  split at h
  · simp at h
  case isFalse hq =>
    split at h
    · simp at h
    case h_2 db1 r heq =>
      rw [Except.ok.injEq, Prod.mk.injEq] at h
      obtain ⟨h1, h2⟩ := h
      subst h1
      subst h2
      obtain ⟨hs, _, _, _, ht, hpo, hso, hn, _⟩ := adjustStockLevel_ok heq
      exact ⟨by omega, hs, by rw [ht], rfl, hpo, hso, hn⟩

/-- Effect of a successful `recordSaleShipmentTx`. -/
theorem recordSaleShipmentTx_ok {db : DB} {u p loc : Nat} {q : Int}
    {soId : Nat} {nf : Bool} {db' : DB} {t : TxRow}
    (h : recordSaleShipmentTx db u p loc q soId nf = .ok (db', t)) :
    0 < q ∧
    db'.stock = (upsertStock db.stock p loc (-q)).1 ∧
    db'.txs = db.txs ++ [t] ∧
    t = { ttype := .SALE, productId := p, quantityChange := -q, userId := u,
          sourceLocationId := some loc, destinationLocationId := none,
          relatedPoId := none, relatedSoId := some soId } ∧
    db'.purchaseOrders = db.purchaseOrders ∧
    db'.salesOrders = db.salesOrders ∧
    db'.notifs = db.notifs := by
  unfold recordSaleShipmentTx at h
  split at h
  · simp at h
  case isFalse hq =>
    split at h
    · simp at h
    case h_2 db1 r heq =>
      rw [Except.ok.injEq, Prod.mk.injEq] at h
      obtain ⟨h1, h2⟩ := h
      subst h1
      subst h2
      obtain ⟨hs, _, _, _, ht, hpo, hso, hn, _⟩ := adjustStockLevel_ok heq
      exact ⟨by omega, hs, by rw [ht], rfl, hpo, hso, hn⟩

/-- Effect of a successful `receivePurchaseOrderItemTx` on stock, ledger,
sales orders and notifications: the order item's product is received into
the destination via one upsert and one PURCHASE row; no status-change
notification is emitted. -/
theorem receivePurchaseOrderItemTx_ok {db : DB} {poId itemId : Nat} {q : Int}
    {loc u : Nat} {nf : Bool} {db' : DB} {it : POItem}
    (h : receivePurchaseOrderItemTx db poId itemId q loc u nf = .ok (db', it)) :
    ∃ po poItem, findPO db poId = some po ∧ findPOItem po itemId = some poItem ∧
      0 < q ∧
      allowedReceiveStatuses.contains po.status = true ∧
      poItem.quantityReceived + q ≤ poItem.quantityOrdered ∧
      it = { poItem with quantityReceived := poItem.quantityReceived + q } ∧
      db'.stock = (upsertStock db.stock poItem.productId loc q).1 ∧
      db'.txs = db.txs ++ [⟨.PURCHASE, poItem.productId, q, u, none, some loc,
        some poId, none⟩] ∧
      db'.salesOrders = db.salesOrders ∧
      db'.notifs = db.notifs := by
  unfold receivePurchaseOrderItemTx at h
  split at h
  · simp at h
  case isFalse hq =>
    split at h
    · simp at h
    case h_2 po hpo =>
      split at h
      · simp at h
      case h_2 poItem hitem =>
        split at h
        · simp at h
        case h_2 prod hprod =>
          split at h
          · simp at h
          case isFalse hstat =>
            split at h
            · simp at h
            case isFalse hover =>
              split at h
              · simp at h
              case isFalse hloc =>
                dsimp only at h
                split at h
                · simp at h
                case h_2 db2 t2 heq =>
                  rw [Except.ok.injEq, Prod.mk.injEq] at h
                  obtain ⟨h1, h2⟩ := h
                  subst h1
                  subst h2
                  obtain ⟨hq', hs, ht, htx, hpo2, hso2, hn2⟩ :=
                    recordPurchaseReceiptTx_ok heq
                  refine ⟨po, poItem, hpo, hitem, by omega,
                    by simpa using hstat, by omega, rfl, ?_, ?_, ?_, ?_⟩
                  · -- stock: the item update and the status update leave it alone
                    split <;> simpa using hs
                  · split <;> (rw [htx] at ht; simpa using ht)
                  · split <;> simpa [updatePO] using hso2
                  · split <;> simpa [updatePO] using hn2

/-- Effect of a successful `shipSalesOrderItemTx` on stock, ledger,
purchase orders and notifications: one enforced decrement at the source and
one SALE row; no status-change notification is emitted. -/
theorem shipSalesOrderItemTx_ok {db : DB} {soId itemId : Nat} {q : Int}
    {loc u : Nat} {nf : Bool} {db' : DB} {it : SOItem}
    (h : shipSalesOrderItemTx db soId itemId q loc u nf = .ok (db', it)) :
    ∃ so soItem, findSO db soId = some so ∧ findSOItem so itemId = some soItem ∧
      0 < q ∧
      allowedShipStatuses.contains so.status = true ∧
      soItem.quantityShipped + q ≤ soItem.quantityOrdered ∧
      it = { soItem with quantityShipped := soItem.quantityShipped + q } ∧
      db'.stock = (upsertStock db.stock soItem.productId loc (-q)).1 ∧
      db'.txs = db.txs ++ [⟨.SALE, soItem.productId, -q, u, some loc, none,
        none, some soId⟩] ∧
      db'.purchaseOrders = db.purchaseOrders ∧
      db'.notifs = db.notifs := by
  unfold shipSalesOrderItemTx at h
  split at h
  · simp at h
  case isFalse hq =>
    split at h
    · simp at h
    case h_2 so hso =>
      split at h
      · simp at h
      case h_2 soItem hitem =>
        split at h
        · simp at h
        case h_2 prod hprod =>
          split at h
          · simp at h
          case isFalse hstat =>
            split at h
            · simp at h
            case isFalse hover =>
              split at h
              · simp at h
              case isFalse hloc =>
                split at h
                · simp at h
                case h_2 db1 t1 heq =>
                  dsimp only at h
                  rw [Except.ok.injEq, Prod.mk.injEq] at h
                  obtain ⟨h1, h2⟩ := h
                  subst h1
                  subst h2
                  obtain ⟨hq', hs, ht, htx, hpo1, hso1, hn1⟩ :=
                    recordSaleShipmentTx_ok heq
                  refine ⟨so, soItem, hso, hitem, by omega,
                    by simpa using hstat, by omega, rfl, ?_, ?_, ?_, ?_⟩
                  · split <;> simpa [updateSO] using hs
                  · split <;> (rw [htx] at ht; simpa [updateSO] using ht)
                  · split <;> simpa [updateSO] using hpo1
                  · split <;> simpa [updateSO] using hn1

/-- Contribution of an inbound row: its `quantityChange` at its destination. -/
theorem contribution_inbound (p l : Nat) (t : TxRow) (hin : isInbound t.ttype = true)
    (hp : t.productId = p) (hd : t.destinationLocationId = some l) (p' l' : Nat) :
    contribution p' l' t = if p' = p ∧ l' = l then t.quantityChange else 0 := by
  unfold contribution
  rw [hin, hp, hd]
  rcases eq_or_ne p' p with rfl | h1
  · rcases eq_or_ne l' l with rfl | h2
    · simp
    · simp [h2, Ne.symm h2]
  · simp [h1, Ne.symm h1]

/-- Contribution of an outbound row: its `quantityChange` at its source. -/
theorem contribution_outbound (p l : Nat) (t : TxRow) (hout : isInbound t.ttype = false)
    (hp : t.productId = p) (hs : t.sourceLocationId = some l) (p' l' : Nat) :
    contribution p' l' t = if p' = p ∧ l' = l then t.quantityChange else 0 := by
  unfold contribution
  rw [hout, hp, hs]
  rcases eq_or_ne p' p with rfl | h1
  · rcases eq_or_ne l' l with rfl | h2
    · simp
    · simp [h2, Ne.symm h2]
  · simp [h1, Ne.symm h1]

/-- Manual PO status updates do not touch stock or ledger. -/
theorem updatePurchaseOrderStatus_stock_txs (db : DB) (i : Nat) (s : OrderStatus)
    (u : Nat) :
    (updatePurchaseOrderStatus db i s u).1.stock = db.stock ∧
    (updatePurchaseOrderStatus db i s u).1.txs = db.txs := by
  unfold updatePurchaseOrderStatus
  split
  · exact ⟨rfl, rfl⟩
  · split
    · exact ⟨rfl, rfl⟩
    · exact ⟨rfl, rfl⟩

/-- Manual SO status updates do not touch stock or ledger. -/
theorem updateSalesOrderStatus_stock_txs (db : DB) (i : Nat) (s : Option OrderStatus)
    (u : Nat) :
    (updateSalesOrderStatus db i s u).1.stock = db.stock ∧
    (updateSalesOrderStatus db i s u).1.txs = db.txs := by
  unfold updateSalesOrderStatus
  split
  · exact ⟨rfl, rfl⟩
  · split
    · exact ⟨rfl, rfl⟩
    · split
      · exact ⟨rfl, rfl⟩
      · exact ⟨rfl, rfl⟩

/-- One validator-conformant, clamp-free service call preserves the
type-attributed ledger identity. -/
theorem applyOp_ledger {nf : Bool} {db : DB} {op : Op} (h0 : LedgerOK db)
    (hv : opValid op = true) (hcf : opClampFree db op = true) :
    LedgerOK (applyOp nf db op) := by
  cases op with
  | adjustment u d =>
    show LedgerOK (atomically db (recordAdjustmentTx db u d nf)).1
    cases hr : recordAdjustmentTx db u d nf with
    | error e => simpa [atomically] using h0
    | ok res =>
      obtain ⟨db', t⟩ := res
      simp only [atomically]
      obtain ⟨hs, ht, hrow, _, _, _⟩ := recordAdjustmentTx_ok hr
      simp only [opClampFree, Bool.or_eq_true, decide_eq_true_eq] at hcf
      have hcf' : 0 ≤ (if d.adjType == TransactionType.ADJUSTMENT_IN
          then d.quantityChange else -d.quantityChange)
          ∨ (findStock db.stock d.productId d.locationId).isSome = true := by
        rcases hcf with h | h
        · exact Or.inl h
        · exact Or.inr h
      refine LedgerOK_step d.productId d.locationId
        (if d.adjType == TransactionType.ADJUSTMENT_IN
          then d.quantityChange else -d.quantityChange) t h0
        (fun p' l' => by rw [hs]; exact stockQty_upsert _ _ _ _ hcf' p' l') ht ?_
      simp only [opValid, Bool.or_eq_true, beq_iff_eq] at hv
      rcases hv with hty | hty
      · intro p' l'
        rw [contribution_inbound d.productId d.locationId t
          (by rw [hrow]; simp [hty, isInbound]) (by rw [hrow])
          (by rw [hrow]; simp [hty]) p' l']
        rw [hrow]
      · intro p' l'
        rw [contribution_outbound d.productId d.locationId t
          (by rw [hrow]; simp [hty, isInbound]) (by rw [hrow])
          (by rw [hrow]; simp [hty]) p' l']
        rw [hrow]
  | transfer u d =>
    show LedgerOK (atomically db (recordTransferTx db u d nf)).1
    cases hr : recordTransferTx db u d nf with
    | error e => simpa [atomically] using h0
    | ok res =>
      obtain ⟨db', ts⟩ := res
      simp only [atomically]
      obtain ⟨hne, hqpos, hs, ht, hrow₁, hrow₂, _, _, _⟩ := recordTransferTx_ok hr
      simp only [opClampFree, Bool.or_eq_true, decide_eq_true_eq] at hcf
      have hcf₁ : 0 ≤ -d.quantity
          ∨ (findStock db.stock d.productId d.sourceLocationId).isSome = true := by
        rcases hcf with h | h
        · omega
        · exact Or.inr h
      refine LedgerOK_step₂ d.productId d.sourceLocationId d.destinationLocationId
        d.quantity ts.1 ts.2 h0 (fun p' l' => ?_) ht ?_ ?_
      · rw [hs]
        rw [stockQty_upsert _ _ _ _ (Or.inl (le_of_lt hqpos)) p' l']
        rw [stockQty_upsert _ _ _ _ hcf₁ p' l']
      · intro p' l'
        rw [contribution_outbound d.productId d.sourceLocationId ts.1
          (by rw [hrow₁]; rfl) (by rw [hrow₁]) (by rw [hrow₁]) p' l']
        rw [hrow₁]
      · intro p' l'
        rw [contribution_inbound d.productId d.destinationLocationId ts.2
          (by rw [hrow₂]; rfl) (by rw [hrow₂]) (by rw [hrow₂]) p' l']
        rw [hrow₂]
  | receiveItem poId itemId q loc u =>
    show LedgerOK (atomically db
      (receivePurchaseOrderItemTx db poId itemId q loc u nf)).1
    cases hr : receivePurchaseOrderItemTx db poId itemId q loc u nf with
    | error e => simpa [atomically] using h0
    | ok res =>
      obtain ⟨db', it⟩ := res
      simp only [atomically]
      obtain ⟨po, poItem, hpo, hitem, hq, _, _, _, hs, ht, _, _⟩ :=
        receivePurchaseOrderItemTx_ok hr
      exact LedgerOK_step poItem.productId loc q _ h0
        (fun p' l' => by
          rw [hs]; exact stockQty_upsert _ _ _ _ (Or.inl (le_of_lt hq)) p' l')
        ht
        (contribution_inbound poItem.productId loc _ rfl rfl rfl)
  | shipItem soId itemId q loc u =>
    show LedgerOK (atomically db (shipSalesOrderItemTx db soId itemId q loc u nf)).1
    cases hr : shipSalesOrderItemTx db soId itemId q loc u nf with
    | error e => simpa [atomically] using h0
    | ok res =>
      obtain ⟨db', it⟩ := res
      simp only [atomically]
      obtain ⟨so, soItem, hso, hitem, hq, _, _, _, hs, ht, _, _⟩ :=
        shipSalesOrderItemTx_ok hr
      simp only [opClampFree, Bool.or_eq_true, decide_eq_true_eq, hso, hitem] at hcf
      have hcf' : 0 ≤ -q ∨ (findStock db.stock soItem.productId loc).isSome = true := by
        rcases hcf with h | h
        · omega
        · exact Or.inr h
      exact LedgerOK_step soItem.productId loc (-q) _ h0
        (fun p' l' => by rw [hs]; exact stockQty_upsert _ _ _ _ hcf' p' l')
        ht
        (contribution_outbound soItem.productId loc _ rfl rfl rfl)
  | poStatusUpdate i s u =>
    obtain ⟨h1, h2⟩ := updatePurchaseOrderStatus_stock_txs db i s u
    exact LedgerOK_unchanged h0 h1 h2
  | soStatusUpdate i s u =>
    obtain ⟨h1, h2⟩ := updateSalesOrderStatus_stock_txs db i s u
    exact LedgerOK_unchanged h0 h1 h2

/-- A clean (validator-conformant, clamp-free) history of service calls
preserves the type-attributed ledger identity. -/
theorem runOps_ledger (nf : Bool) (ops : List Op) : ∀ db : DB, LedgerOK db →
    cleanRun nf db ops = true → LedgerOK (runOps nf db ops) := by
  induction ops with
  | nil =>
    intro db h0 _
    exact h0
  | cons op ops ih =>
    intro db h0 hclean
    simp only [cleanRun, Bool.and_eq_true] at hclean
    obtain ⟨⟨hv, hcf⟩, hrest⟩ := hclean
    simpa only [runOps, List.foldl_cons] using
      ih _ (applyOp_ledger h0 hv hcf) hrest

/-! Claim C1. -/

/-- C1, counterexample: the claimed formula
`quantity == sum(quantityChange where destination == L) - sum(quantityChange
where source == L)` fails on the code. After `ADJUSTMENT_IN 5` and
`ADJUSTMENT_OUT 3` at location 1 (the OUT row stores `quantityChange = -3`
with location 1 as *source*), the stock is `2` but the formula yields
`5 - (-3) = 8`. -/
theorem C1_counterexample :
    stockQty (runOps false exampleDB c1Ops).stock 1 1 = 2 ∧
    claimedLedgerSum (runOps false exampleDB c1Ops).txs 1 1 = 8 ∧
    stockQty (runOps false exampleDB c1Ops).stock 1 1
      ≠ claimedLedgerSum (runOps false exampleDB c1Ops).txs 1 1 := by
  refine ⟨by decide, by decide, by decide⟩

/-- C1, amended: the ledger identity holds with each row's `quantityChange`
attributed to the single location its type acts on (destination for
PURCHASE / ADJUSTMENT_IN / TRANSFER_IN, source for SALE / ADJUSTMENT_OUT /
TRANSFER_OUT), for every history of validator-conformant service calls in
which no enforced decrement hits a missing StockLevel row (the create
branch would clamp the balance to zero while the caller still logs the
negative change — the behaviour of claim C10): starting from any state
satisfying the identity, it holds again after every operation. -/
theorem C1_ledger_identity (nf : Bool) (ops : List Op) (db : DB)
    (h0 : LedgerOK db) (hclean : cleanRun nf db ops = true) :
    LedgerOK (runOps nf db ops) :=
  runOps_ledger nf ops db h0 hclean

/-- C1, witness: the amended identity evaluated on a concrete history
(two adjustments and a transfer) at both locations. -/
theorem C1_ledger_identity_witness :
    cleanRun false exampleDB c1OpsT = true ∧
    stockQty (runOps false exampleDB c1OpsT).stock 1 1
      = typedLedgerSum (runOps false exampleDB c1OpsT).txs 1 1 ∧
    stockQty (runOps false exampleDB c1OpsT).stock 1 2
      = typedLedgerSum (runOps false exampleDB c1OpsT).txs 1 2 :=
  ⟨by decide,
   C1_ledger_identity false c1OpsT exampleDB (fun _ _ => rfl) (by decide) 1 1,
   C1_ledger_identity false c1OpsT exampleDB (fun _ _ => rfl) (by decide) 1 2⟩

/-- Rollback of `prisma.$transaction`: when the body fails, the observable
state is the input state. -/
theorem atomically_error {α : Type} (db : DB) (act : Except Err (DB × α)) (e : Err)
    (h : (atomically db act).2 = .error e) : (atomically db act).1 = db := by
  cases act with
  | ok res => simp [atomically] at h
  | error e' => rfl

/-! Claim C2. -/

/-- C2: atomicity of fulfillment. Whenever `receivePurchaseOrderItem` or
`shipSalesOrderItem` fails — at any of its steps: validation, stock
adjustment, transaction insert, counter update, status update, audit — the
observable state is exactly the state before the call: stock levels,
transaction rows, item fulfilled counters and order statuses are all rolled
back; no partial application is observable. -/
theorem C2_fulfillment_atomicity (db : DB) (nf : Bool) :
    (∀ poId itemId q loc u e,
      (receivePurchaseOrderItem db poId itemId q loc u nf).2 = .error e →
      (receivePurchaseOrderItem db poId itemId q loc u nf).1 = db) ∧
    (∀ soId itemId q loc u e,
      (shipSalesOrderItem db soId itemId q loc u nf).2 = .error e →
      (shipSalesOrderItem db soId itemId q loc u nf).1 = db) := by
  constructor
  · intro poId itemId q loc u e h
    exact atomically_error db _ e h
  · intro soId itemId q loc u e h
    exact atomically_error db _ e h

/-- C2, witness: on a store with no orders both fulfillment calls fail
(`NotFoundError`) and leave the state untouched. -/
theorem C2_fulfillment_atomicity_witness :
    (receivePurchaseOrderItem exampleDB 1 1 5 1 7 false).2 = .error .notFoundEntity ∧
    (receivePurchaseOrderItem exampleDB 1 1 5 1 7 false).1 = exampleDB ∧
    (shipSalesOrderItem exampleDB 1 1 5 1 7 false).2 = .error .notFoundEntity ∧
    (shipSalesOrderItem exampleDB 1 1 5 1 7 false).1 = exampleDB :=
  ⟨rfl,
   (C2_fulfillment_atomicity exampleDB false).1 1 1 5 1 7 .notFoundEntity rfl,
   rfl,
   (C2_fulfillment_atomicity exampleDB false).2 1 1 5 1 7 .notFoundEntity rfl⟩

/-! Claim C3. -/

/-- C3: insufficient stock rejection. An `ADJUSTMENT_OUT` for more than the
available quantity of an existing StockLevel row fails the whole atomic
unit with the insufficient-stock `ConflictError` (the spec's
`InsufficientStockError`) carrying product, location, requested change and
available quantity; the returned state is exactly the input state — the
upsert is rolled back, the quantity is unchanged and no Transaction row is
created. -/
theorem C3_insufficient_stock (db : DB) (u : Nat) (d : CreateAdjustmentInput)
    (nf : Bool) (row : StockRow)
    (hty : d.adjType = .ADJUSTMENT_OUT)
    (hq : 0 < d.quantityChange)
    (hrow : findStock db.stock d.productId d.locationId = some row)
    (hins : row.quantity < d.quantityChange)
    (hprod : (findProduct db d.productId).isSome = true)
    (hloc : hasLocation db d.locationId = true) :
    recordAdjustment db u d nf
      = (db, .error (.conflictInsufficientStock d.productId d.locationId
          (-d.quantityChange) row.quantity)) := by
  obtain ⟨product, hprod'⟩ := Option.isSome_iff_exists.mp hprod
  have h0 : ¬(-d.quantityChange = 0) := by omega
  have hsnd : (upsertStock db.stock d.productId d.locationId (-d.quantityChange)).2
      = row.quantity - d.quantityChange := by
    unfold upsertStock
    rw [hrow]
    dsimp only
    omega
  have hneg : row.quantity - d.quantityChange < 0 := by omega
  unfold recordAdjustment recordAdjustmentTx adjustStockLevel atomically
  rw [hty]
  simp [h0, hprod', hloc, hsnd, hneg]

/-- C3, witness: five in stock, `recordAdjustment(…, 8, OUT)` fails with the
insufficient-stock conflict carrying requested `-8` and available `5`; the
state — stock quantity and transaction list — is unchanged. -/
theorem C3_insufficient_stock_witness :
    recordAdjustment c3DB 7 ⟨1, 1, 8, .ADJUSTMENT_OUT⟩ false
      = (c3DB, .error (.conflictInsufficientStock 1 1 (-8) 5)) :=
  C3_insufficient_stock c3DB 7 ⟨1, 1, 8, .ADJUSTMENT_OUT⟩ false ⟨1, 1, 5⟩
    rfl (by decide) (by decide) (by decide) (by decide) (by decide)

/-! Claim C10. -/

/-- C10: an enforced outbound adjustment on a missing StockLevel row does
not fail: the upsert's create branch initialises the quantity to
`max 0 quantityChange = 0`, the post-write check passes (`0 < 0` is false),
a Transaction row with the negative `quantityChange` is still recorded, and
the call reports success — stock is never deducted. -/
theorem C10_missing_row_out_succeeds (db : DB) (u : Nat)
    (d : CreateAdjustmentInput) (nf : Bool)
    (hty : d.adjType = .ADJUSTMENT_OUT)
    (hq : 0 < d.quantityChange)
    (hrow : findStock db.stock d.productId d.locationId = none)
    (hprod : (findProduct db d.productId).isSome = true)
    (hloc : hasLocation db d.locationId = true) :
    ∃ t : TxRow,
      (recordAdjustment db u d nf).2 = .ok t ∧
      t.quantityChange = -d.quantityChange ∧
      t.ttype = .ADJUSTMENT_OUT ∧
      t.sourceLocationId = some d.locationId ∧
      (recordAdjustment db u d nf).1.stock
        = db.stock ++ [⟨d.productId, d.locationId, 0⟩] ∧
      stockQty (recordAdjustment db u d nf).1.stock d.productId d.locationId = 0 ∧
      (recordAdjustment db u d nf).1.txs = db.txs ++ [t] := by
  obtain ⟨product, hprod'⟩ := Option.isSome_iff_exists.mp hprod
  have h0 : ¬(-d.quantityChange = 0) := by omega
  have hmax : max 0 (-d.quantityChange) = 0 := by omega
  have hup : upsertStock db.stock d.productId d.locationId (-d.quantityChange)
      = (db.stock ++ [⟨d.productId, d.locationId, 0⟩], 0) := by
    unfold upsertStock
    rw [hrow, hmax]
  have h0' : ¬(d.quantityChange = 0) := by omega
  have hsnd0 : (upsertStock db.stock d.productId d.locationId (-d.quantityChange)).2
      = 0 := by rw [hup]
  have hfst : (upsertStock db.stock d.productId d.locationId (-d.quantityChange)).1
      = db.stock ++ [⟨d.productId, d.locationId, 0⟩] := by rw [hup]
  have hq0 : stockQty (db.stock ++ [⟨d.productId, d.locationId, 0⟩])
      d.productId d.locationId = 0 := by
    unfold stockQty
    unfold findStock at hrow ⊢
    rw [List.find?_append, hrow]
    simp
  refine ⟨⟨.ADJUSTMENT_OUT, d.productId, -d.quantityChange, u,
    some d.locationId, none, none, none⟩, ?_⟩
  unfold recordAdjustment recordAdjustmentTx adjustStockLevel atomically
  rw [hty]
  simp [h0', hprod', hloc, hsnd0, hfst, hq0]

/-- C10, witness: from an empty store, `recordAdjustment(…, 3, OUT)`
succeeds, creates the row at quantity `0` and logs `quantityChange = -3`. -/
theorem C10_missing_row_out_succeeds_witness :
    ((recordAdjustment exampleDB 7 ⟨1, 1, 3, .ADJUSTMENT_OUT⟩ false).2).isOk = true ∧
    stockQty (recordAdjustment exampleDB 7 ⟨1, 1, 3, .ADJUSTMENT_OUT⟩ false).1.stock 1 1
      = 0 := by
  obtain ⟨t, hok, _, _, _, _, hq, _⟩ :=
    C10_missing_row_out_succeeds exampleDB 7 ⟨1, 1, 3, .ADJUSTMENT_OUT⟩ false
      rfl (by decide) (by decide) (by decide) (by decide)
  exact ⟨by rw [hok]; rfl, hq⟩

/-! Claim C7. -/

/-- C7: the transfer contract. `recordTransfer` rejects equal source and
destination with the same-location `BadRequestError` (the failure the
spec's taxonomy labels `InvalidArgumentError`) before any write; and every
successful transfer, within one atomic unit, appends exactly the two rows
TRANSFER_OUT (`quantityChange = -qty`, at the source) and TRANSFER_IN
(`quantityChange = +qty`, at the destination), increments the destination
unconditionally, and decrements the source under the non-negative
enforcement (whenever the source row existed, its quantity drops by `qty`
and the result is provably non-negative). -/
theorem C7_transfer_contract (db : DB) (u : Nat) (d : CreateTransferInput)
    (nf : Bool) :
    (d.sourceLocationId = d.destinationLocationId →
      recordTransfer db u d nf = (db, .error .badRequestSameLocation)) ∧
    (∀ db' out inn, recordTransfer db u d nf = (db', .ok (out, inn)) →
      out = ⟨.TRANSFER_OUT, d.productId, -d.quantity, u, some d.sourceLocationId,
        some d.destinationLocationId, none, none⟩ ∧
      inn = ⟨.TRANSFER_IN, d.productId, d.quantity, u, some d.sourceLocationId,
        some d.destinationLocationId, none, none⟩ ∧
      db'.txs = db.txs ++ [out, inn] ∧
      stockQty db'.stock d.productId d.destinationLocationId
        = stockQty db.stock d.productId d.destinationLocationId + d.quantity ∧
      (∀ row, findStock db.stock d.productId d.sourceLocationId = some row →
        stockQty db'.stock d.productId d.sourceLocationId
          = row.quantity - d.quantity ∧
        0 ≤ row.quantity - d.quantity)) := by
  constructor
  · intro hsame
    unfold recordTransfer recordTransferTx atomically
    simp [hsame]
  · intro db' out inn h
    unfold recordTransfer at h
    cases hr : recordTransferTx db u d nf with
    | error e =>
      rw [hr] at h
      simp [atomically] at h
    | ok res =>
      rw [hr] at h
      obtain ⟨db₂, ts⟩ := res
      simp only [atomically] at h
      rw [Prod.mk.injEq, Except.ok.injEq] at h
      obtain ⟨hdb, hts⟩ := h
      subst hdb
      obtain ⟨hne, hqpos, hs, ht, hrow₁, hrow₂, _, _, _, hnn⟩ := recordTransferTx_ok hr
      have hout : out = ts.1 := by rw [hts]
      have hinn : inn = ts.2 := by rw [hts]
      refine ⟨by rw [hout, hrow₁], by rw [hinn, hrow₂], ?_, ?_, ?_⟩
      · rw [ht, hout, hinn]
      · rw [hs]
        rw [stockQty_upsert _ _ _ _ (Or.inl (le_of_lt hqpos)) d.productId
          d.destinationLocationId]
        rw [stockQty_upsert_other _ _ _ _ _ _
          (by rintro ⟨-, h2⟩; exact hne h2.symm)]
        simp
      · intro row hrowex
        have hsq : stockQty db.stock d.productId d.sourceLocationId = row.quantity := by
          unfold stockQty
          rw [hrowex]
        have hclamp : (0 : Int) ≤ -d.quantity
            ∨ (findStock db.stock d.productId d.sourceLocationId).isSome = true := by
          right
          rw [hrowex]
          rfl
        constructor
        · rw [hs]
          rw [stockQty_upsert_other _ _ _ _ _ _
            (by rintro ⟨-, h2⟩; exact hne h2)]
          rw [stockQty_upsert _ _ _ _ hclamp d.productId d.sourceLocationId]
          rw [hsq]
          simp
          omega
        · have := upsertStock_snd db.stock d.productId d.sourceLocationId
            (-d.quantity) hclamp
          rw [this, hsq] at hnn
          omega

/-- C7, witness: transferring 5 from location 1 to itself is rejected;
transferring 12 of the 20 units at location 1 to location 2 leaves 8 and
12. -/
theorem C7_transfer_contract_witness :
    recordTransfer exampleDB 7 ⟨1, 1, 1, 5⟩ false
      = (exampleDB, .error .badRequestSameLocation) ∧
    stockQty (recordTransfer c7DB 7 ⟨1, 1, 2, 12⟩ false).1.stock 1 1 = 8 ∧
    stockQty (recordTransfer c7DB 7 ⟨1, 1, 2, 12⟩ false).1.stock 1 2 = 12 := by
  refine ⟨(C7_transfer_contract exampleDB 7 ⟨1, 1, 1, 5⟩ false).1 rfl, ?_, ?_⟩
  · have h := (C7_transfer_contract c7DB 7 ⟨1, 1, 2, 12⟩ false).2
      (recordTransfer c7DB 7 ⟨1, 1, 2, 12⟩ false).1
      ⟨.TRANSFER_OUT, 1, -12, 7, some 1, some 2, none, none⟩
      ⟨.TRANSFER_IN, 1, 12, 7, some 1, some 2, none, none⟩ rfl
    have hs := h.2.2.2.2 ⟨1, 1, 20⟩ rfl
    rw [hs.1]
    decide
  · have h := (C7_transfer_contract c7DB 7 ⟨1, 1, 2, 12⟩ false).2
      (recordTransfer c7DB 7 ⟨1, 1, 2, 12⟩ false).1
      ⟨.TRANSFER_OUT, 1, -12, 7, some 1, some 2, none, none⟩
      ⟨.TRANSFER_IN, 1, 12, 7, some 1, some 2, none, none⟩ rfl
    rw [h.2.2.2.1]
    decide

/-! Claim C8. -/

/-- C8: low-stock threshold crossing. After every successful stock
adjustment, the low-stock trigger fires iff `reorderLevel > 0`,
`newQuantity ≤ reorderLevel` and `previousQuantity = newQuantity -
quantityChange > reorderLevel`; and the trigger is fire-and-forget: a
failing delivery changes nothing about the adjustment's outcome — success,
error, stock and the reported result coincide; only the delivered-alert log
differs. -/
theorem C8_low_stock_trigger (db : DB) (p l : Nat) (qc : Int) (cn nf : Bool) :
    (∀ db' r product, adjustStockLevel db p l qc cn nf = .ok (db', r) →
      findProduct db p = some product →
      (r.lowStockTriggered = true ↔
        (0 < product.reorderLevel ∧ r.quantity ≤ product.reorderLevel ∧
          product.reorderLevel < r.quantity - qc))) ∧
    (adjustStockLevel db p l qc cn true).map (fun x => ({ x.1 with alerts := [] }, x.2))
      = (adjustStockLevel db p l qc cn false).map
          (fun x => ({ x.1 with alerts := [] }, x.2)) := by
  constructor
  · intro db' r product h hprod
    unfold adjustStockLevel at h
    split at h
    · simp at h
    · split at h
      · simp at h
      case h_2 prod heq =>
        rw [hprod] at heq
        injection heq with heq'
        subst heq'
        split at h
        · dsimp only at h
          split at h
          · simp at h
          · rw [Except.ok.injEq, Prod.mk.injEq] at h
            obtain ⟨h1, h2⟩ := h
            subst h1
            subst h2
            simp [and_assoc]
        · simp at h
  · unfold adjustStockLevel
    split
    · rfl
    · split
      · rfl
      · split
        · dsimp only
          split
          · rfl
          · rfl
        · rfl

/-- C8, witness: reorder level 10, balance 12, enforced change `-3`: the
new quantity 9 crosses the threshold (previous 12 > 10 ≥ 9), so the trigger
fires; and the state modulo the delivered-alert log is the same whether or
not delivery fails. -/
theorem C8_low_stock_trigger_witness :
    (⟨9, true⟩ : AdjustResult).lowStockTriggered = true ∧
    (adjustStockLevel c8DB 1 1 (-3) true true).map
        (fun x => ({ x.1 with alerts := [] }, x.2))
      = (adjustStockLevel c8DB 1 1 (-3) true false).map
          (fun x => ({ x.1 with alerts := [] }, x.2)) :=
  ⟨((C8_low_stock_trigger c8DB 1 1 (-3) true false).1
      ({ c8DB with stock := [⟨1, 1, 9⟩], alerts := [⟨1, 1, 9⟩] }) ⟨9, true⟩
      ⟨1, 10⟩ (by rfl) rfl).mpr (by decide),
   (C8_low_stock_trigger c8DB 1 1 (-3) true true).2⟩

/-- Item evolution through a successful receive: every purchase-order item
keeps its ordered quantity; the addressed item gains exactly the received
amount (and stays within the ordered quantity), every other item is
untouched. -/
theorem receivePurchaseOrderItemTx_items {db : DB} {poId itemId : Nat} {q : Int}
    {loc u : Nat} {nf : Bool} {db' : DB} {it : POItem}
    (h : receivePurchaseOrderItemTx db poId itemId q loc u nf = .ok (db', it)) :
    ∀ poId' itemId' itOld, getPOItem db poId' itemId' = some itOld →
      ∃ itNew, getPOItem db' poId' itemId' = some itNew ∧
        itNew.quantityOrdered = itOld.quantityOrdered ∧
        itOld.quantityReceived ≤ itNew.quantityReceived ∧
        itNew.quantityReceived ≤ max itOld.quantityReceived itOld.quantityOrdered := by
  unfold receivePurchaseOrderItemTx at h
  split at h
  · simp at h
  case isFalse hq =>
    split at h
    · simp at h
    case h_2 po hpo =>
      split at h
      · simp at h
      case h_2 poItem hitem =>
        split at h
        · simp at h
        case h_2 prod hprod =>
          split at h
          · simp at h
          case isFalse hstat =>
            split at h
            · simp at h
            case isFalse hover =>
              split at h
              · simp at h
              case isFalse hloc =>
                dsimp only at h
                split at h
                · simp at h
                case h_2 db2 t2 heq =>
                  rw [Except.ok.injEq, Prod.mk.injEq] at h
                  obtain ⟨h1, h2⟩ := h
                  subst h1
                  intro poId' itemId' itOld hold
                  obtain ⟨_, _, _, _, hpo2, _, _⟩ := recordPurchaseReceiptTx_ok heq
                  have hstep : getPOItem db2 poId' itemId'
                      = (getPOItem db poId' itemId').map
                          (fun i => if poId' = poId ∧ itemId' = itemId then
                            { i with quantityReceived := i.quantityReceived + q } else i) := by
                    rw [getPOItem_congr hpo2 poId' itemId',
                      getPOItem_updatePO_item db poId itemId
                        (fun i => { i with quantityReceived := i.quantityReceived + q })
                        (fun i => rfl) poId' itemId']
                  have haud : ∀ dbx : DB,
                      getPOItem { dbx with
                        audits := dbx.audits ++ [⟨u, "RECEIVE_PO_ITEM"⟩] } poId' itemId'
                      = getPOItem dbx poId' itemId' := fun dbx => rfl
                  by_cases hkey : poId' = poId ∧ itemId' = itemId
                  · refine ⟨{ itOld with quantityReceived := itOld.quantityReceived + q },
                      ?_, rfl,
                      by show itOld.quantityReceived ≤ itOld.quantityReceived + q; omega, ?_⟩
                    · rw [haud]
                      split
                      · rw [getPOItem_status_set db2 poId _ poId' itemId', hstep, hold]
                        simp [hkey]
                      · rw [hstep, hold]
                        simp [hkey]
                    · obtain ⟨hk1, hk2⟩ := hkey
                      subst hk1
                      subst hk2
                      have hsame : itOld = poItem := by
                        unfold getPOItem at hold
                        rw [hpo] at hold
                        dsimp only at hold
                        rw [hitem] at hold
                        injection hold with h'
                        exact h'.symm
                      subst hsame
                      simp only [not_lt] at hover
                      exact le_trans hover (le_max_right _ _)
                  · refine ⟨itOld, ?_, rfl, le_refl _, le_max_left _ _⟩
                    rw [haud]
                    split
                    · rw [getPOItem_status_set db2 poId _ poId' itemId', hstep, hold]
                      simp [hkey]
                    · rw [hstep, hold]
                      simp [hkey]

/-- Item evolution through a successful shipment: mirror of the receive
case for sales-order items. -/
theorem shipSalesOrderItemTx_items {db : DB} {soId itemId : Nat} {q : Int}
    {loc u : Nat} {nf : Bool} {db' : DB} {it : SOItem}
    (h : shipSalesOrderItemTx db soId itemId q loc u nf = .ok (db', it)) :
    ∀ soId' itemId' itOld, getSOItem db soId' itemId' = some itOld →
      ∃ itNew, getSOItem db' soId' itemId' = some itNew ∧
        itNew.quantityOrdered = itOld.quantityOrdered ∧
        itOld.quantityShipped ≤ itNew.quantityShipped ∧
        itNew.quantityShipped ≤ max itOld.quantityShipped itOld.quantityOrdered := by
  unfold shipSalesOrderItemTx at h
  split at h
  · simp at h
  case isFalse hq =>
    split at h
    · simp at h
    case h_2 so hso =>
      split at h
      · simp at h
      case h_2 soItem hitem =>
        split at h
        · simp at h
        case h_2 prod hprod =>
          split at h
          · simp at h
          case isFalse hstat =>
            split at h
            · simp at h
            case isFalse hover =>
              split at h
              · simp at h
              case isFalse hloc =>
                split at h
                · simp at h
                case h_2 db1 t1 heq =>
                  dsimp only at h
                  rw [Except.ok.injEq, Prod.mk.injEq] at h
                  obtain ⟨h1, h2⟩ := h
                  subst h1
                  intro soId' itemId' itOld hold
                  obtain ⟨_, _, _, _, _, hso1, _⟩ := recordSaleShipmentTx_ok heq
                  have hold1 : getSOItem db1 soId' itemId' = some itOld := by
                    rw [getSOItem_congr hso1 soId' itemId']
                    exact hold
                  have hstep : getSOItem (updateSO db1 soId
                      (fun s => updateSOItem s itemId
                        (fun i => { i with quantityShipped := i.quantityShipped + q })))
                      soId' itemId'
                      = (getSOItem db1 soId' itemId').map
                          (fun i => if soId' = soId ∧ itemId' = itemId then
                            { i with quantityShipped := i.quantityShipped + q } else i) :=
                    getSOItem_updateSO_item db1 soId itemId
                      (fun i => { i with quantityShipped := i.quantityShipped + q })
                      (fun i => rfl) soId' itemId'
                  have haud : ∀ dbx : DB,
                      getSOItem { dbx with
                        audits := dbx.audits ++ [⟨u, "SHIP_SO_ITEM"⟩] } soId' itemId'
                      = getSOItem dbx soId' itemId' := fun dbx => rfl
                  by_cases hkey : soId' = soId ∧ itemId' = itemId
                  · refine ⟨{ itOld with quantityShipped := itOld.quantityShipped + q },
                      ?_, rfl,
                      by show itOld.quantityShipped ≤ itOld.quantityShipped + q; omega, ?_⟩
                    · rw [haud]
                      split
                      · rw [getSOItem_status_set _ soId _ soId' itemId', hstep, hold1]
                        simp [hkey]
                      · rw [hstep, hold1]
                        simp [hkey]
                    · obtain ⟨hk1, hk2⟩ := hkey
                      subst hk1
                      subst hk2
                      have hsame : itOld = soItem := by
                        unfold getSOItem at hold
                        rw [hso] at hold
                        dsimp only at hold
                        rw [hitem] at hold
                        injection hold with h'
                        exact h'.symm
                      subst hsame
                      have hb : itOld.quantityShipped + q ≤ itOld.quantityOrdered := by
                        omega
                      exact le_trans hb (le_max_right _ _)
                  · refine ⟨itOld, ?_, rfl, le_refl _, le_max_left _ _⟩
                    rw [haud]
                    split
                    · rw [getSOItem_status_set _ soId _ soId' itemId', hstep, hold1]
                      simp [hkey]
                    · rw [hstep, hold1]
                      simp [hkey]

/-- One service call keeps every purchase-order item's ordered quantity,
never decreases its received counter, and never pushes it past
`max received ordered` (so past `ordered` whenever the invariant
`received ≤ ordered` held). -/
theorem applyOp_poItems_mono (nf : Bool) (db : DB) (op : Op)
    (poId itemId : Nat) (itOld : POItem)
    (h : getPOItem db poId itemId = some itOld) :
    ∃ itNew, getPOItem (applyOp nf db op) poId itemId = some itNew ∧
      itNew.quantityOrdered = itOld.quantityOrdered ∧
      itOld.quantityReceived ≤ itNew.quantityReceived ∧
      itNew.quantityReceived ≤ max itOld.quantityReceived itOld.quantityOrdered := by
  have triv : ∀ db₂ : DB, getPOItem db₂ poId itemId = getPOItem db poId itemId →
      ∃ itNew, getPOItem db₂ poId itemId = some itNew ∧
        itNew.quantityOrdered = itOld.quantityOrdered ∧
        itOld.quantityReceived ≤ itNew.quantityReceived ∧
        itNew.quantityReceived ≤ max itOld.quantityReceived itOld.quantityOrdered :=
    fun db₂ he => ⟨itOld, by rw [he, h], rfl, le_refl _, le_max_left _ _⟩
  cases op with
  | adjustment u d =>
    show ∃ _, getPOItem (atomically db (recordAdjustmentTx db u d nf)).1 poId itemId
      = _ ∧ _
    cases hr : recordAdjustmentTx db u d nf with
    | error e => exact triv _ rfl
    | ok res =>
      obtain ⟨db', t⟩ := res
      obtain ⟨_, _, _, hpo, _, _⟩ := recordAdjustmentTx_ok hr
      exact triv _ (getPOItem_congr hpo poId itemId)
  | transfer u d =>
    show ∃ _, getPOItem (atomically db (recordTransferTx db u d nf)).1 poId itemId
      = _ ∧ _
    cases hr : recordTransferTx db u d nf with
    | error e => exact triv _ rfl
    | ok res =>
      obtain ⟨db', ts⟩ := res
      obtain ⟨_, _, _, _, _, _, hpo, _, _, _⟩ := recordTransferTx_ok hr
      exact triv _ (getPOItem_congr hpo poId itemId)
  | receiveItem poId₀ itemId₀ q loc u =>
    show ∃ _, getPOItem
      (atomically db (receivePurchaseOrderItemTx db poId₀ itemId₀ q loc u nf)).1
      poId itemId = _ ∧ _
    cases hr : receivePurchaseOrderItemTx db poId₀ itemId₀ q loc u nf with
    | error e => exact triv _ rfl
    | ok res =>
      obtain ⟨db', it⟩ := res
      exact receivePurchaseOrderItemTx_items hr poId itemId itOld h
  | shipItem soId₀ itemId₀ q loc u =>
    show ∃ _, getPOItem
      (atomically db (shipSalesOrderItemTx db soId₀ itemId₀ q loc u nf)).1
      poId itemId = _ ∧ _
    cases hr : shipSalesOrderItemTx db soId₀ itemId₀ q loc u nf with
    | error e => exact triv _ rfl
    | ok res =>
      obtain ⟨db', it⟩ := res
      obtain ⟨_, _, _, _, _, _, _, _, _, _, hpo, _⟩ := shipSalesOrderItemTx_ok hr
      exact triv _ (getPOItem_congr hpo poId itemId)
  | poStatusUpdate i s u =>
    show ∃ _, getPOItem (updatePurchaseOrderStatus db i s u).1 poId itemId = _ ∧ _
    unfold updatePurchaseOrderStatus
    split
    · exact triv _ rfl
    · split
      · exact triv _ rfl
      · refine triv _ ?_
        rw [show ∀ dbx : DB, ∀ n a, getPOItem { dbx with notifs := n, audits := a }
            poId itemId = getPOItem dbx poId itemId from fun _ _ _ => rfl]
        exact getPOItem_status_set db i s poId itemId
  | soStatusUpdate i s u =>
    show ∃ _, getPOItem (updateSalesOrderStatus db i s u).1 poId itemId = _ ∧ _
    unfold updateSalesOrderStatus
    split
    · exact triv _ rfl
    · split
      · exact triv _ rfl
      · split
        · exact triv _ rfl
        · exact triv _ rfl

/-- One service call keeps every sales-order item's ordered quantity, never
decreases its shipped counter, and never pushes it past
`max shipped ordered`. -/
theorem applyOp_soItems_mono (nf : Bool) (db : DB) (op : Op)
    (soId itemId : Nat) (itOld : SOItem)
    (h : getSOItem db soId itemId = some itOld) :
    ∃ itNew, getSOItem (applyOp nf db op) soId itemId = some itNew ∧
      itNew.quantityOrdered = itOld.quantityOrdered ∧
      itOld.quantityShipped ≤ itNew.quantityShipped ∧
      itNew.quantityShipped ≤ max itOld.quantityShipped itOld.quantityOrdered := by
  have triv : ∀ db₂ : DB, getSOItem db₂ soId itemId = getSOItem db soId itemId →
      ∃ itNew, getSOItem db₂ soId itemId = some itNew ∧
        itNew.quantityOrdered = itOld.quantityOrdered ∧
        itOld.quantityShipped ≤ itNew.quantityShipped ∧
        itNew.quantityShipped ≤ max itOld.quantityShipped itOld.quantityOrdered :=
    fun db₂ he => ⟨itOld, by rw [he, h], rfl, le_refl _, le_max_left _ _⟩
  cases op with
  | adjustment u d =>
    show ∃ _, getSOItem (atomically db (recordAdjustmentTx db u d nf)).1 soId itemId
      = _ ∧ _
    cases hr : recordAdjustmentTx db u d nf with
    | error e => exact triv _ rfl
    | ok res =>
      obtain ⟨db', t⟩ := res
      obtain ⟨_, _, _, _, hso, _⟩ := recordAdjustmentTx_ok hr
      exact triv _ (getSOItem_congr hso soId itemId)
  | transfer u d =>
    show ∃ _, getSOItem (atomically db (recordTransferTx db u d nf)).1 soId itemId
      = _ ∧ _
    cases hr : recordTransferTx db u d nf with
    | error e => exact triv _ rfl
    | ok res =>
      obtain ⟨db', ts⟩ := res
      obtain ⟨_, _, _, _, _, _, _, hso, _, _⟩ := recordTransferTx_ok hr
      exact triv _ (getSOItem_congr hso soId itemId)
  | receiveItem poId₀ itemId₀ q loc u =>
    show ∃ _, getSOItem
      (atomically db (receivePurchaseOrderItemTx db poId₀ itemId₀ q loc u nf)).1
      soId itemId = _ ∧ _
    cases hr : receivePurchaseOrderItemTx db poId₀ itemId₀ q loc u nf with
    | error e => exact triv _ rfl
    | ok res =>
      obtain ⟨db', it⟩ := res
      obtain ⟨_, _, _, _, _, _, _, _, _, _, hso, _⟩ := receivePurchaseOrderItemTx_ok hr
      exact triv _ (getSOItem_congr hso soId itemId)
  | shipItem soId₀ itemId₀ q loc u =>
    show ∃ _, getSOItem
      (atomically db (shipSalesOrderItemTx db soId₀ itemId₀ q loc u nf)).1
      soId itemId = _ ∧ _
    cases hr : shipSalesOrderItemTx db soId₀ itemId₀ q loc u nf with
    | error e => exact triv _ rfl
    | ok res =>
      obtain ⟨db', it⟩ := res
      exact shipSalesOrderItemTx_items hr soId itemId itOld h
  | poStatusUpdate i s u =>
    show ∃ _, getSOItem (updatePurchaseOrderStatus db i s u).1 soId itemId = _ ∧ _
    unfold updatePurchaseOrderStatus
    split
    · exact triv _ rfl
    · split
      · exact triv _ rfl
      · exact triv _ rfl
  | soStatusUpdate i s u =>
    show ∃ _, getSOItem (updateSalesOrderStatus db i s u).1 soId itemId = _ ∧ _
    unfold updateSalesOrderStatus
    split
    · exact triv _ rfl
    · split
      · exact triv _ rfl
      · split
        · exact triv _ rfl
        · refine triv _ ?_
          rw [show ∀ dbx : DB, ∀ n a, getSOItem { dbx with notifs := n, audits := a }
              soId itemId = getSOItem dbx soId itemId from fun _ _ _ => rfl]
          exact getSOItem_status_set db i _ soId itemId

/-- Monotone fulfillment over a whole history of service calls. -/
theorem runOps_poItems_mono (nf : Bool) (ops : List Op) :
    ∀ db poId itemId itOld, getPOItem db poId itemId = some itOld →
      ∃ itNew, getPOItem (runOps nf db ops) poId itemId = some itNew ∧
        itNew.quantityOrdered = itOld.quantityOrdered ∧
        itOld.quantityReceived ≤ itNew.quantityReceived ∧
        itNew.quantityReceived ≤ max itOld.quantityReceived itOld.quantityOrdered := by
  induction ops with
  | nil =>
    intro db poId itemId itOld h
    exact ⟨itOld, h, rfl, le_refl _, le_max_left _ _⟩
  | cons op ops ih =>
    intro db poId itemId itOld h
    obtain ⟨itMid, hMid, hOrd, hMono, hBound⟩ := applyOp_poItems_mono nf db op
      poId itemId itOld h
    obtain ⟨itNew, hNew, hOrd', hMono', hBound'⟩ := ih (applyOp nf db op)
      poId itemId itMid hMid
    refine ⟨itNew, by simpa only [runOps, List.foldl_cons] using hNew,
      by rw [hOrd', hOrd], le_trans hMono hMono', ?_⟩
    rw [hOrd] at hBound'
    rcases le_max_iff.mp hBound' with h1 | h1
    · exact le_trans h1 hBound
    · exact le_trans h1 (le_max_right _ _)

/-- Monotone shipment over a whole history of service calls. -/
theorem runOps_soItems_mono (nf : Bool) (ops : List Op) :
    ∀ db soId itemId itOld, getSOItem db soId itemId = some itOld →
      ∃ itNew, getSOItem (runOps nf db ops) soId itemId = some itNew ∧
        itNew.quantityOrdered = itOld.quantityOrdered ∧
        itOld.quantityShipped ≤ itNew.quantityShipped ∧
        itNew.quantityShipped ≤ max itOld.quantityShipped itOld.quantityOrdered := by
  induction ops with
  | nil =>
    intro db soId itemId itOld h
    exact ⟨itOld, h, rfl, le_refl _, le_max_left _ _⟩
  | cons op ops ih =>
    intro db soId itemId itOld h
    obtain ⟨itMid, hMid, hOrd, hMono, hBound⟩ := applyOp_soItems_mono nf db op
      soId itemId itOld h
    obtain ⟨itNew, hNew, hOrd', hMono', hBound'⟩ := ih (applyOp nf db op)
      soId itemId itMid hMid
    refine ⟨itNew, by simpa only [runOps, List.foldl_cons] using hNew,
      by rw [hOrd', hOrd], le_trans hMono hMono', ?_⟩
    rw [hOrd] at hBound'
    rcases le_max_iff.mp hBound' with h1 | h1
    · exact le_trans h1 hBound
    · exact le_trans h1 (le_max_right _ _)

/-! Claim C5. -/

/-- C5: fulfillment monotonicity. Over every history of service calls an
order item's `quantityReceived`/`quantityShipped` never decreases, its
`quantityOrdered` never changes, and the counter never exceeds
`max fulfilled ordered` (hence never exceeds `ordered` when it started
within it); and a receive/ship request with `fulfilled + quantity >
ordered` fails with the over-fulfillment `BadRequestError` whose payload is
the remaining fulfillable amount `ordered - fulfilled`, returning exactly
the pre-call state: no partial increment, no stock mutation, no ledger
row. -/
theorem C5_fulfillment_monotonicity :
    (∀ (nf : Bool) (ops : List Op) (db : DB) (poId itemId : Nat) (itOld : POItem),
      getPOItem db poId itemId = some itOld →
      ∃ itNew, getPOItem (runOps nf db ops) poId itemId = some itNew ∧
        itNew.quantityOrdered = itOld.quantityOrdered ∧
        itOld.quantityReceived ≤ itNew.quantityReceived ∧
        itNew.quantityReceived ≤ max itOld.quantityReceived itOld.quantityOrdered) ∧
    (∀ (nf : Bool) (ops : List Op) (db : DB) (soId itemId : Nat) (itOld : SOItem),
      getSOItem db soId itemId = some itOld →
      ∃ itNew, getSOItem (runOps nf db ops) soId itemId = some itNew ∧
        itNew.quantityOrdered = itOld.quantityOrdered ∧
        itOld.quantityShipped ≤ itNew.quantityShipped ∧
        itNew.quantityShipped ≤ max itOld.quantityShipped itOld.quantityOrdered) ∧
    (∀ (db : DB) (poId itemId : Nat) (q : Int) (loc u : Nat) (nf : Bool)
        (po : PurchaseOrder) (poItem : POItem),
      findPO db poId = some po → findPOItem po itemId = some poItem →
      (findProduct db poItem.productId).isSome = true →
      allowedReceiveStatuses.contains po.status = true →
      0 < q → poItem.quantityOrdered < poItem.quantityReceived + q →
      receivePurchaseOrderItem db poId itemId q loc u nf
        = (db, .error (.badRequestOverFulfill
            (poItem.quantityOrdered - poItem.quantityReceived)))) ∧
    (∀ (db : DB) (soId itemId : Nat) (q : Int) (loc u : Nat) (nf : Bool)
        (so : SalesOrder) (soItem : SOItem),
      findSO db soId = some so → findSOItem so itemId = some soItem →
      (findProduct db soItem.productId).isSome = true →
      allowedShipStatuses.contains so.status = true →
      0 < q → soItem.quantityOrdered - soItem.quantityShipped < q →
      shipSalesOrderItem db soId itemId q loc u nf
        = (db, .error (.badRequestOverFulfill
            (soItem.quantityOrdered - soItem.quantityShipped)))) := by
  refine ⟨?_, ?_, ?_, ?_⟩
  · intro nf ops db poId itemId itOld h
    exact runOps_poItems_mono nf ops db poId itemId itOld h
  · intro nf ops db soId itemId itOld h
    exact runOps_soItems_mono nf ops db soId itemId itOld h
  · intro db poId itemId q loc u nf po poItem hpo hitem hprod hallowed hq hover
    have hq0 : ¬ q ≤ 0 := by omega
    obtain ⟨prod, hprod'⟩ := Option.isSome_iff_exists.mp hprod
    unfold receivePurchaseOrderItem receivePurchaseOrderItemTx atomically
    simp [hq0, hpo, hitem, hprod', hallowed, hover,
      show po.status ∈ allowedReceiveStatuses from by simpa using hallowed]
  · intro db soId itemId q loc u nf so soItem hso hitem hprod hallowed hq hover
    have hq0 : ¬ q ≤ 0 := by omega
    obtain ⟨prod, hprod'⟩ := Option.isSome_iff_exists.mp hprod
    unfold shipSalesOrderItem shipSalesOrderItemTx atomically
    simp [hq0, hso, hitem, hprod', hallowed, hover,
      show so.status ∈ allowedShipStatuses from by simpa using hallowed]

/-- C5, witness: an item with 10 ordered / 7 fulfilled rejects a receive
and a ship of 5 with the remaining amount `10 - 7` in the error, leaving
the state untouched. -/
theorem C5_fulfillment_monotonicity_witness :
    receivePurchaseOrderItem c5PODB 1 1 5 1 9 false
      = (c5PODB, .error (.badRequestOverFulfill (10 - 7))) ∧
    shipSalesOrderItem c5SODB 1 1 5 1 9 false
      = (c5SODB, .error (.badRequestOverFulfill (10 - 7))) :=
  ⟨C5_fulfillment_monotonicity.2.2.1 c5PODB 1 1 5 1 9 false
      ⟨1, 100, 5, .PARTIAL, [⟨1, 1, 10, 7⟩]⟩ ⟨1, 1, 10, 7⟩
      rfl rfl (by decide) (by decide) (by decide) (by decide),
   C5_fulfillment_monotonicity.2.2.2 c5SODB 1 1 5 1 9 false
      ⟨1, 200, 5, .APPROVED, [⟨1, 1, 10, 7⟩]⟩ ⟨1, 1, 10, 7⟩
      rfl rfl (by decide) (by decide) (by decide) (by decide)⟩

/-- The PO status recomputation as a pure function of the two aggregate
sums (the empty-items guard is subsumed: an empty list has zero sums). -/
theorem calculateOverallPOStatus_eq (items : List POItem) :
    calculateOverallPOStatus items =
      (if (items.map (fun i => i.quantityReceived)).sum = 0 then .PENDING
       else if (items.map (fun i => i.quantityReceived)).sum
           < (items.map (fun i => i.quantityOrdered)).sum then .PARTIAL
       else .RECEIVED) := by
  unfold calculateOverallPOStatus
  cases items with
  | nil => simp
  | cons x xs => rfl

/-- The SO status recomputation as a pure function of the sums. -/
theorem calculateOverallSOStatus_eq (items : List SOItem) :
    calculateOverallSOStatus items =
      (if (items.map (fun i => i.quantityShipped)).sum = 0 then .PENDING
       else if (items.map (fun i => i.quantityShipped)).sum
           < (items.map (fun i => i.quantityOrdered)).sum then .PARTIAL
       else .SHIPPED) := by
  unfold calculateOverallSOStatus
  cases items with
  | nil => simp
  | cons x xs => rfl

/-! Claim C4. -/

/-- C4: derived status is a pure function of the aggregates. The
recomputed status is PENDING when total fulfilled is 0, PARTIAL when
strictly between 0 and total ordered, RECEIVED (purchase) / SHIPPED
(sales) when total fulfilled reaches total ordered; it depends only on the
aggregate sums, so any permutation of the items — any order of the
fulfillments that produced them — yields the same value; and the
recomputation in the fulfillment paths never overwrites a COMPLETED or
CANCELLED header: on such orders the fulfillment call leaves the state
untouched (it is rejected before any write). -/
theorem C4_status_derivation :
    (∀ items : List POItem,
      ((items.map (fun i => i.quantityReceived)).sum = 0 →
        calculateOverallPOStatus items = .PENDING) ∧
      (0 < (items.map (fun i => i.quantityReceived)).sum →
        (items.map (fun i => i.quantityReceived)).sum
          < (items.map (fun i => i.quantityOrdered)).sum →
        calculateOverallPOStatus items = .PARTIAL) ∧
      (0 < (items.map (fun i => i.quantityReceived)).sum →
        (items.map (fun i => i.quantityOrdered)).sum
          ≤ (items.map (fun i => i.quantityReceived)).sum →
        calculateOverallPOStatus items = .RECEIVED)) ∧
    (∀ items : List SOItem,
      ((items.map (fun i => i.quantityShipped)).sum = 0 →
        calculateOverallSOStatus items = .PENDING) ∧
      (0 < (items.map (fun i => i.quantityShipped)).sum →
        (items.map (fun i => i.quantityShipped)).sum
          < (items.map (fun i => i.quantityOrdered)).sum →
        calculateOverallSOStatus items = .PARTIAL) ∧
      (0 < (items.map (fun i => i.quantityShipped)).sum →
        (items.map (fun i => i.quantityOrdered)).sum
          ≤ (items.map (fun i => i.quantityShipped)).sum →
        calculateOverallSOStatus items = .SHIPPED)) ∧
    (∀ items items' : List POItem, items.Perm items' →
      calculateOverallPOStatus items = calculateOverallPOStatus items') ∧
    (∀ items items' : List SOItem, items.Perm items' →
      calculateOverallSOStatus items = calculateOverallSOStatus items') ∧
    (∀ (db : DB) (poId itemId : Nat) (q : Int) (loc u : Nat) (nf : Bool) po,
      findPO db poId = some po →
      (po.status = .COMPLETED ∨ po.status = .CANCELLED) →
      (receivePurchaseOrderItem db poId itemId q loc u nf).1 = db) ∧
    (∀ (db : DB) (soId itemId : Nat) (q : Int) (loc u : Nat) (nf : Bool) so,
      findSO db soId = some so →
      (so.status = .COMPLETED ∨ so.status = .CANCELLED) →
      (shipSalesOrderItem db soId itemId q loc u nf).1 = db) := by
  refine ⟨?_, ?_, ?_, ?_, ?_, ?_⟩
  · intro items
    rw [calculateOverallPOStatus_eq]
    refine ⟨fun h => by simp [h], fun h1 h2 => ?_, fun h1 h2 => ?_⟩
    · split_ifs <;> first | rfl | (exfalso; omega)
    · split_ifs <;> first | rfl | (exfalso; omega)
  · intro items
    rw [calculateOverallSOStatus_eq]
    refine ⟨fun h => by simp [h], fun h1 h2 => ?_, fun h1 h2 => ?_⟩
    · split_ifs <;> first | rfl | (exfalso; omega)
    · split_ifs <;> first | rfl | (exfalso; omega)
  · intro items items' hp
    rw [calculateOverallPOStatus_eq, calculateOverallPOStatus_eq,
      (hp.map (fun i => i.quantityReceived)).sum_eq,
      (hp.map (fun i => i.quantityOrdered)).sum_eq]
  · intro items items' hp
    rw [calculateOverallSOStatus_eq, calculateOverallSOStatus_eq,
      (hp.map (fun i => i.quantityShipped)).sum_eq,
      (hp.map (fun i => i.quantityOrdered)).sum_eq]
  · intro db poId itemId q loc u nf po hpo hterm
    unfold receivePurchaseOrderItem
    cases hr : receivePurchaseOrderItemTx db poId itemId q loc u nf with
    | error e => rfl
    | ok res =>
      exfalso
      obtain ⟨db', it⟩ := res
      obtain ⟨po', poItem, hpo', _, _, hallowed, _⟩ :=
        receivePurchaseOrderItemTx_ok hr
      rw [hpo] at hpo'
      injection hpo' with h'
      subst h'
      rcases hterm with h | h <;> rw [h] at hallowed <;>
        simp [allowedReceiveStatuses] at hallowed
  · intro db soId itemId q loc u nf so hso hterm
    unfold shipSalesOrderItem
    cases hr : shipSalesOrderItemTx db soId itemId q loc u nf with
    | error e => rfl
    | ok res =>
      exfalso
      obtain ⟨db', it⟩ := res
      obtain ⟨so', soItem, hso', _, _, hallowed, _⟩ := shipSalesOrderItemTx_ok hr
      rw [hso] at hso'
      injection hso' with h'
      subst h'
      rcases hterm with h | h <;> rw [h] at hallowed <;>
        simp [allowedShipStatuses] at hallowed

/-- C4, witness: the table at concrete aggregates, a concrete permutation,
and a completed order left untouched by an attempted receive. -/
theorem C4_status_derivation_witness :
    calculateOverallPOStatus [⟨1, 1, 10, 7⟩] = .PARTIAL ∧
    calculateOverallSOStatus [⟨1, 1, 10, 10⟩] = .SHIPPED ∧
    calculateOverallPOStatus [⟨1, 1, 4, 2⟩, ⟨2, 2, 6, 3⟩]
      = calculateOverallPOStatus [⟨2, 2, 6, 3⟩, ⟨1, 1, 4, 2⟩] ∧
    (receivePurchaseOrderItem c4TermDB 1 1 3 1 5 false).1 = c4TermDB :=
  ⟨(C4_status_derivation.1 [⟨1, 1, 10, 7⟩]).2.1 (by decide) (by decide),
   (C4_status_derivation.2.1 [⟨1, 1, 10, 10⟩]).2.2 (by decide) (by decide),
   C4_status_derivation.2.2.1 [⟨1, 1, 4, 2⟩, ⟨2, 2, 6, 3⟩]
     [⟨2, 2, 6, 3⟩, ⟨1, 1, 4, 2⟩] (by decide),
   C4_status_derivation.2.2.2.2.1 c4TermDB 1 1 3 1 5 false
     ⟨1, 100, 5, .COMPLETED, [⟨1, 1, 10, 7⟩]⟩ rfl (Or.inl rfl)⟩

/-! Claim C6. -/

/-- C6, counterexample: the transition table is not enforced for sales
orders. On a PENDING sales order a manual change straight to COMPLETED —
absent from the table, which allows only APPROVED and CANCELLED from
PENDING — succeeds. -/
theorem C6_counterexample :
    (updateSalesOrderStatus c6SODB 1 (some .COMPLETED) 9).2
      = .ok ⟨1, 200, 5, .COMPLETED, []⟩ ∧
    (allowedPOTransitions .PENDING).contains .COMPLETED = false :=
  ⟨rfl, by decide⟩

/-- C6, amended: only purchase orders enforce the transition table
(PENDING→{APPROVED, CANCELLED}; APPROVED→{PROCESSING, CANCELLED, RECEIVED,
PARTIAL}; PROCESSING→{RECEIVED, PARTIAL, CANCELLED}; PARTIAL→{RECEIVED,
COMPLETED, CANCELLED}; RECEIVED→{COMPLETED, CANCELLED}; nothing out of
COMPLETED or CANCELLED): a manual purchase-order change succeeds exactly
when the table allows it and otherwise fails with the invalid-transition
`BadRequestError` leaving the order unchanged. A manual sales-order change
is rejected (same error class, order unchanged) only when the order is in
CANCELLED or COMPLETED and a different status is requested; every other
requested sales-order status value — in the table or not — is accepted. -/
theorem C6_manual_status_transitions :
    (∀ (db : DB) (i : Nat) (s : OrderStatus) (u : Nat) po, findPO db i = some po →
      ((allowedPOTransitions po.status).contains s = true →
        (updatePurchaseOrderStatus db i s u).2 = .ok { po with status := s } ∧
        (findPO (updatePurchaseOrderStatus db i s u).1 i).map (fun p => p.status)
          = some s) ∧
      ((allowedPOTransitions po.status).contains s = false →
        updatePurchaseOrderStatus db i s u
          = (db, .error (.badRequestTransition po.status s)))) ∧
    (∀ (db : DB) (i : Nat) (s : OrderStatus) (u : Nat) so, findSO db i = some so →
      (((so.status = .CANCELLED ∨ so.status = .COMPLETED) ∧ s ≠ so.status) →
        updateSalesOrderStatus db i (some s) u
          = (db, .error (.badRequestTransition so.status s))) ∧
      (¬((so.status = .CANCELLED ∨ so.status = .COMPLETED) ∧ s ≠ so.status) →
        (updateSalesOrderStatus db i (some s) u).2 = .ok { so with status := s })) := by
  constructor
  · intro db i s u po hpo
    constructor
    · intro hallow
      have hmem : s ∈ allowedPOTransitions po.status := by simpa using hallow
      have hnot : ¬(!(allowedPOTransitions po.status).contains s) = true := by
        simp [hmem]
      constructor
      · unfold updatePurchaseOrderStatus
        rw [hpo]
        dsimp only
        rw [if_neg hnot]
      · have h1 : findPO (updatePurchaseOrderStatus db i s u).1 i
            = findPO (updatePO db i (fun p => { p with status := s })) i := by
          unfold updatePurchaseOrderStatus
          rw [hpo]
          dsimp only
          rw [if_neg hnot]
          rfl
        rw [h1, findPO_updatePO db i (fun p => { p with status := s })
          (fun p => rfl) i, hpo]
        dsimp only [Option.map]
        have hid : po.id = i := by
          simpa using List.find?_some
            (show db.purchaseOrders.find? (fun p => p.id == i) = some po from hpo)
        rw [if_pos (by simp [hid])]
    · intro hdeny
      unfold updatePurchaseOrderStatus
      rw [hpo]
      dsimp only
      rw [if_pos (by simpa using hdeny)]
  · intro db i s u so hso
    constructor
    · intro hterm
      unfold updateSalesOrderStatus
      rw [hso]
      dsimp only
      rw [if_pos ?_]
      · rfl
      · obtain ⟨h1, h2⟩ := hterm
        simp only [Bool.and_eq_true, Bool.or_eq_true, beq_iff_eq, bne_iff_ne, ne_eq]
        exact ⟨h1, h2⟩
    · intro hnot
      have hcond : ¬((so.status == OrderStatus.CANCELLED
          || so.status == OrderStatus.COMPLETED) && s != so.status) = true := by
        intro hb
        apply hnot
        simp only [Bool.and_eq_true, Bool.or_eq_true, beq_iff_eq, bne_iff_ne, ne_eq] at hb
        exact ⟨hb.1, hb.2⟩
      unfold updateSalesOrderStatus
      rw [hso]
      dsimp only
      rw [if_neg hcond]

/-- C6, witness: the purchase-order table accepts APPROVED→PROCESSING,
rejects APPROVED→PENDING, and a sales order in COMPLETED rejects a change
to PENDING; a PENDING sales order accepts COMPLETED. -/
theorem C6_manual_status_transitions_witness :
    (updatePurchaseOrderStatus c9DB 1 .PROCESSING 9).2
      = .ok ⟨1, 100, 5, .PROCESSING, [⟨1, 1, 10, 0⟩]⟩ ∧
    updatePurchaseOrderStatus c9DB 1 .PENDING 9
      = (c9DB, .error (.badRequestTransition .APPROVED .PENDING)) ∧
    updateSalesOrderStatus c6SOTermDB 1 (some .PENDING) 9
      = (c6SOTermDB, .error (.badRequestTransition .COMPLETED .PENDING)) ∧
    (updateSalesOrderStatus c6SODB 1 (some .COMPLETED) 9).2
      = .ok ⟨1, 200, 5, .COMPLETED, []⟩ :=
  ⟨((C6_manual_status_transitions.1 c9DB 1 .PROCESSING 9
      ⟨1, 100, 5, .APPROVED, [⟨1, 1, 10, 0⟩]⟩ rfl).1 (by decide)).1,
   (C6_manual_status_transitions.1 c9DB 1 .PENDING 9
      ⟨1, 100, 5, .APPROVED, [⟨1, 1, 10, 0⟩]⟩ rfl).2 (by decide),
   (C6_manual_status_transitions.2 c6SOTermDB 1 .PENDING 9
      ⟨1, 200, 5, .COMPLETED, []⟩ rfl).1 ⟨Or.inr rfl, by decide⟩,
   (C6_manual_status_transitions.2 c6SODB 1 .COMPLETED 9
      ⟨1, 200, 5, .PENDING, []⟩ rfl).2 (by decide)⟩

/-! Claim C9. -/

/-- C9, counterexample: a receive that changes the header status emits no
order-status-changed notification. On an APPROVED order, receiving 3 of 10
moves the status to PARTIAL, yet the notification log stays empty. -/
theorem C9_counterexample :
    (findPO c9DB 1).map (fun p => p.status) = some .APPROVED ∧
    (findPO (receivePurchaseOrderItem c9DB 1 1 3 1 5 false).1 1).map
      (fun p => p.status) = some .PARTIAL ∧
    (receivePurchaseOrderItem c9DB 1 1 3 1 5 false).1.notifs = [] := by
  refine ⟨rfl, by decide, rfl⟩

/-- C9, amended: the fulfillment operations never emit an
order-status-changed notification, even when they change the header
status; `onOrderStatusChanged` is emitted exactly by the manual status
update operations, which append one notification (orderId, order type,
order number, new status, the order's creator) on every successful
update. -/
theorem C9_status_notifications (db : DB) :
    (∀ poId itemId q loc u nf,
      (receivePurchaseOrderItem db poId itemId q loc u nf).1.notifs = db.notifs) ∧
    (∀ soId itemId q loc u nf,
      (shipSalesOrderItem db soId itemId q loc u nf).1.notifs = db.notifs) ∧
    (∀ i s u db' po, updatePurchaseOrderStatus db i s u = (db', .ok po) →
      db'.notifs = db.notifs ++ [⟨i, true, po.orderNumber, po.status, po.userId⟩]) ∧
    (∀ i s u db' so, updateSalesOrderStatus db i (some s) u = (db', .ok so) →
      db'.notifs = db.notifs ++ [⟨i, false, so.orderNumber, so.status, so.userId⟩]) := by
  refine ⟨?_, ?_, ?_, ?_⟩
  · intro poId itemId q loc u nf
    unfold receivePurchaseOrderItem
    cases hr : receivePurchaseOrderItemTx db poId itemId q loc u nf with
    | error e => rfl
    | ok res =>
      obtain ⟨db', it⟩ := res
      obtain ⟨_, _, _, _, _, _, _, _, _, _, _, hn⟩ :=
        receivePurchaseOrderItemTx_ok hr
      exact hn
  · intro soId itemId q loc u nf
    unfold shipSalesOrderItem
    cases hr : shipSalesOrderItemTx db soId itemId q loc u nf with
    | error e => rfl
    | ok res =>
      obtain ⟨db', it⟩ := res
      obtain ⟨_, _, _, _, _, _, _, _, _, _, _, hn⟩ := shipSalesOrderItemTx_ok hr
      exact hn
  · intro i s u db' po h
    unfold updatePurchaseOrderStatus at h
    split at h
    · simp at h
    case h_2 po₀ hpo =>
      split at h
      · simp at h
      · rw [Prod.mk.injEq, Except.ok.injEq] at h
        obtain ⟨h1, h2⟩ := h
        subst h1
        subst h2
        rfl
  · intro i s u db' so h
    unfold updateSalesOrderStatus at h
    split at h
    · simp at h
    case h_2 so₀ hso =>
      split at h
      · simp at h
      · dsimp only at h
        rw [Prod.mk.injEq, Except.ok.injEq] at h
        obtain ⟨h1, h2⟩ := h
        subst h1
        subst h2
        rfl

/-- C9, witness: the receive on the APPROVED order leaves the notification
log unchanged although its status moves, and the manual update to
PROCESSING appends exactly one notification. -/
theorem C9_status_notifications_witness :
    (receivePurchaseOrderItem c9DB 1 1 3 1 5 false).1.notifs = c9DB.notifs ∧
    (updatePurchaseOrderStatus c9DB 1 .PROCESSING 9).1.notifs
      = c9DB.notifs ++ [⟨1, true, 100, .PROCESSING, 5⟩] :=
  ⟨(C9_status_notifications c9DB).1 1 1 3 1 5 false,
   (C9_status_notifications c9DB).2.2.1 1 .PROCESSING 9
     (updatePurchaseOrderStatus c9DB 1 .PROCESSING 9).1
     ⟨1, 100, 5, .PROCESSING, [⟨1, 1, 10, 0⟩]⟩ (by rfl)⟩

end InvenEase
